import Mathlib

/-!
# Drite: the application shell

A shallow embedding of `src/application/application.cpp` and the interfaces it
drives (`Platform`, `Window`, `GraphicsContext`, `PlatformFactory`).

* A C++ `double` is a value of `Double`: a rational, an infinity or NaN, and
  `Double.sub` rounds as IEEE 754 binary64 does (to nearest, ties to even). The
  sign of a zero is not tracked; no operation of the program tells the zeros
  apart. The `float` components of a colour are only ever copied and are
  carried as the rationals their literals denote.
* A null-pointer dereference is the explicit result `Fault.nullDeref`.
* The abstract collaborators are played by a scripted double (`Env`) and every
  collaborator call is appended, in program order, to `World.trace`.
-/

namespace Drite

/-! ## Numbers: C++ `double` -/

/-- An IEEE 754 binary64 value: a finite number, an infinity, or NaN. -/
inductive Double where
  | finite (q : ℚ)
  | posInf
  | negInf
  | nan
  deriving DecidableEq, Repr

/-- The integer part of the binary logarithm of `n / d`, for positive `n`, `d`. -/
def Double.floorLog2 (n d : Nat) : Int :=
  let k : Int := (Nat.log2 n : Int) - (Nat.log2 d : Int)
  if d * 2 ^ k.toNat ≤ n * 2 ^ (-k).toNat then k else k - 1

/-- The natural number nearest to `n / d`, a tie going to the even one. -/
def Double.roundHalfEven (n d : Nat) : Nat :=
  let f := n / d
  let r := n % d
  if 2 * r < d then f
  else if d < 2 * r then f + 1
  else if f % 2 = 0 then f
  else f + 1

/-- The binary64 value nearest to the positive `n / d`: a significand of at most
53 bits at an exponent of at least -1074; `none` when the rounded value reaches
`2 ^ 1024`, which is the overflow to infinity. -/
def Double.roundMagnitude (n d : Nat) : Option ℚ :=
  let e : Int := max (Double.floorLog2 n d - 52) (-1074)
  let m := Double.roundHalfEven (n * 2 ^ (-e).toNat) (d * 2 ^ e.toNat)
  if 2 ^ 1024 * 2 ^ (-e).toNat ≤ m * 2 ^ e.toNat then none
  else some (((m * 2 ^ e.toNat : Nat) : ℚ) / ((2 ^ (-e).toNat : Nat) : ℚ))

/-- Rounding of an exact result to binary64. -/
def Double.round (q : ℚ) : Double :=
  if q = 0 then Double.finite 0
  else if 0 < q then
    match Double.roundMagnitude q.num.toNat q.den with
    | none => Double.posInf
    | some v => Double.finite v
  else
    match Double.roundMagnitude (-q).num.toNat q.den with
    | none => Double.negInf
    | some v => Double.finite (-v)

/-- The `double` subtraction `a - b`. -/
def Double.sub : Double → Double → Double
  | Double.finite a, Double.finite b => Double.round (a - b)
  | Double.finite _, Double.posInf => Double.negInf
  | Double.finite _, Double.negInf => Double.posInf
  | Double.finite _, Double.nan => Double.nan
  | Double.posInf, Double.finite _ => Double.posInf
  | Double.posInf, Double.posInf => Double.nan
  | Double.posInf, Double.negInf => Double.posInf
  | Double.posInf, Double.nan => Double.nan
  | Double.negInf, Double.finite _ => Double.negInf
  | Double.negInf, Double.posInf => Double.negInf
  | Double.negInf, Double.negInf => Double.nan
  | Double.negInf, Double.nan => Double.nan
  | Double.nan, _ => Double.nan

/-- The `double` comparison `a <= b`; it is false when either side is NaN. -/
def Double.le : Double → Double → Bool
  | Double.finite a, Double.finite b => decide (a ≤ b)
  | Double.finite _, Double.posInf => true
  | Double.negInf, Double.finite _ => true
  | Double.negInf, Double.negInf => true
  | Double.negInf, Double.posInf => true
  | Double.posInf, Double.posInf => true
  | _, _ => false

/-- Whether a `double` is neither an infinity nor NaN. -/
def Double.isFinite : Double → Bool
  | Double.finite _ => true
  | _ => false

/-! ## Input event model (`input/input_types.h`) -/

/-- Keyboard key codes, in declaration order. -/
inductive KeyCode where
  | Unknown
  | A | B | C | D | E | F | G | H | I | J | K | L | M
  | N | O | P | Q | R | S | T | U | V | W | X | Y | Z
  | Num0 | Num1 | Num2 | Num3 | Num4 | Num5 | Num6 | Num7 | Num8 | Num9
  | F1 | F2 | F3 | F4 | F5 | F6 | F7 | F8 | F9 | F10 | F11 | F12
  | Escape | Tab | CapsLock | Shift | Control | Alt | Command
  | Space | Enter | Backspace | Delete
  | Left | Right | Up | Down
  | Home | End | PageUp | PageDown
  | Minus | Equal | LeftBracket | RightBracket
  | Semicolon | Quote | Comma | Period | Slash | Backslash | Grave
  deriving DecidableEq, Repr

/-- Key action types. -/
inductive KeyAction where
  | Press | Release | Repeat
  deriving DecidableEq, Repr

/-- Mouse button types. -/
inductive MouseButton where
  | Left | Right | Middle | Button4 | Button5
  deriving DecidableEq, Repr

/-- Mouse action types. -/
inductive MouseAction where
  | Press | Release | Move
  deriving DecidableEq, Repr

/-- Keyboard modifier keys state. -/
structure KeyModifiers where
  shift : Bool := false
  control : Bool := false
  alt : Bool := false
  command : Bool := false
  deriving DecidableEq, Repr

/-- Keyboard event; `scancode` is a `uint32_t`. -/
structure KeyEvent where
  key : KeyCode := KeyCode.Unknown
  action : KeyAction := KeyAction.Press
  modifiers : KeyModifiers := {}
  scancode : Nat := 0
  deriving DecidableEq, Repr

/-- Mouse event. -/
structure MouseEvent where
  action : MouseAction := MouseAction.Move
  button : MouseButton := MouseButton.Left
  x : Double := Double.finite 0
  y : Double := Double.finite 0
  modifiers : KeyModifiers := {}
  deriving DecidableEq, Repr

/-- Scroll event. -/
structure ScrollEvent where
  xOffset : Double := Double.finite 0
  yOffset : Double := Double.finite 0
  x : Double := Double.finite 0
  y : Double := Double.finite 0
  deriving DecidableEq, Repr

/-! ## Graphics and window value types -/

/-- Colour used for clearing (`graphics/graphics_context.h`). -/
structure ClearColor where
  r : ℚ := 0
  g : ℚ := 0
  b : ℚ := 0
  a : ℚ := 1
  deriving DecidableEq, Repr

/-- Window configuration (`window/window.h`). -/
structure WindowConfig where
  title : String := "Drite"
  width : Int := 1280
  height : Int := 720
  resizable : Bool := true
  vsync : Bool := true
  deriving DecidableEq, Repr

/-! ## Observable effects -/

/-- Lines written by `std::print` / `std::println`, with their arguments. -/
inductive Msg where
  | failedCreatePlatform
  | failedInitPlatform
  | platformName (name : String)
  | failedCreateWindow
  | windowSize (w h : Int)
  | drawableSize (w h : Int)
  | retinaScaling (drawableWidth windowWidth : Int)
  | newline
  | resized (w h : Int)
  | resizedPixels (w h : Int)
  | closeRequested
  | keyPressed (key : KeyCode)
  | mouseClick (x y : Double)
  | scroll (xOffset yOffset : Double)
  | mainFailed (title : String)
  | mainInitialized (title : String)
  deriving DecidableEq, Repr

/-- A call the `Application` makes to one of its handlers from a window
callback: the body of one of the closures built in `Application::initialize`. -/
inductive AppCall where
  | onResize (w h : Int)
  | onClose
  | onKey (e : KeyEvent)
  | onMouse (e : MouseEvent)
  | onScroll (e : ScrollEvent)
  deriving DecidableEq, Repr

/-- Every operation of the collaborator interfaces, plus the markers for the
application's own `update`/`render`, the call of `run()` made by `main`, a
dispatched callback and printed output. -/
inductive Call where
  | factoryGetInstance
  | factoryCreate
  | platformInitialize
  | platformShutdown
  | platformCreateWindow (cfg : WindowConfig)
  | platformPollEvents
  | platformWaitEvents
  | platformGetTime
  | platformSleep (ms : Int)
  | platformGetPlatformName
  | windowInitialize (cfg : WindowConfig)
  | windowShow
  | windowClose
  | windowShouldClose
  | windowGetSize
  | windowGetFramebufferSize
  | windowGetPosition
  | windowSetTitle (title : String)
  | windowSetSize (w h : Int)
  | windowIsFocused
  | windowIsMinimized
  | windowGetGraphicsContext
  | windowSetKeyCallback
  | windowSetMouseCallback
  | windowSetScrollCallback
  | windowSetResizeCallback
  | windowSetCloseCallback
  | windowDestroy
  | contextInitialize
  | contextBeginFrame
  | contextEndFrame
  | contextClear (c : ClearColor)
  | contextSetVSync (enabled : Bool)
  | contextGetViewportSize
  | contextGetNativeDevice
  | contextGetNativeCommandQueue
  | callback (c : AppCall)
  | update (deltaTime : Double)
  | render
  | run
  | print (m : Msg)
  deriving DecidableEq, Repr

/-- Ways an operation can fail to return: a null pointer was dereferenced, or
the run loop was cut off by the iteration budget of the model. -/
inductive Fault where
  | nullDeref
  | outOfFuel
  deriving DecidableEq, Repr

/-! ## Collaborator doubles -/

/-- Modelled from the spec: the state of a `Window` implementation, which is
only declared in `window/window.h`. It holds the five single-slot callbacks
(last writer wins), the close flag, the two sizes and how often `show()` ran. -/
structure Window where
  size : Int × Int
  framebufferSize : Int × Int
  closeFlag : Bool := false
  shown : Nat := 0
  keyCallback : Option (KeyEvent → AppCall) := none
  mouseCallback : Option (MouseEvent → AppCall) := none
  scrollCallback : Option (ScrollEvent → AppCall) := none
  resizeCallback : Option (Int → Int → AppCall) := none
  closeCallback : Option AppCall := none

/-- Modelled from the spec: what the native event queue holds for a window. A
backend turns each entry into a callback invocation or into the close flag. -/
inductive NativeEvent where
  | key (e : KeyEvent)
  | mouse (e : MouseEvent)
  | scroll (e : ScrollEvent)
  | resize (w h : Int)
  | close
  | requestClose
  deriving DecidableEq, Repr

/-- Modelled from the spec: the call counters of the process-wide `Platform`
object, which is only declared in `platform/platform.h`. -/
structure Platform where
  initializeCalls : Nat := 0
  shutdownCalls : Nat := 0
  windowsCreated : Nat := 0
  polls : Nat := 0
  timeCalls : Nat := 0
  deriving DecidableEq, Repr

/-- The scripted behaviour of the collaborators, indexed by how often the
operation ran before. -/
structure Env where
  create : Nat → Bool
  platformInitialize : Nat → Bool
  createWindow : Nat → WindowConfig → Option Window
  getTime : Nat → Double
  pollEvents : Nat → List NativeEvent
  platformName : String := "Fake"

/-- The data members of `Application` (`application/application.h`). -/
structure Application where
  platform : Option Nat := none
  window : Option Window := none
  running : Bool := false
  lastFrameTime : Double := Double.finite 0

/-- The whole program state: the application object, the factory's static
`instance`, the platform singleton and the log of calls made so far. -/
structure World where
  app : Application := {}
  factoryInstance : Option Nat := none
  creates : Nat := 0
  platform : Platform := {}
  trace : List Call := []

/-- Append calls to the log. -/
def World.log (w : World) (cs : List Call) : World :=
  { w with trace := w.trace ++ cs }

/-- The `window->` dereference of the `window` member. -/
def World.derefWindow (w : World) : Except Fault Window :=
  match w.app.window with
  | none => Except.error Fault.nullDeref
  | some win => Except.ok win

/-- The `platform->` dereference of the `platform` member. -/
def World.derefPlatform (w : World) : Except Fault Nat :=
  match w.app.platform with
  | none => Except.error Fault.nullDeref
  | some p => Except.ok p

/-- Store a new state for the window the application points to. -/
def World.setWindow (w : World) (win : Window) : World :=
  { w with app := { w.app with window := some win } }

/-! ## `Window` and `GraphicsContext` operations, called through `window->` -/

/-- `Window::setResizeCallback`. -/
def Window.setResizeCallback (cb : Int → Int → AppCall) (w : World) : Except Fault World := do
  let win ← w.derefWindow
  pure ((w.setWindow { win with resizeCallback := some cb }).log [Call.windowSetResizeCallback])

/-- `Window::setCloseCallback`. -/
def Window.setCloseCallback (cb : AppCall) (w : World) : Except Fault World := do
  let win ← w.derefWindow
  pure ((w.setWindow { win with closeCallback := some cb }).log [Call.windowSetCloseCallback])

/-- `Window::setKeyCallback`. -/
def Window.setKeyCallback (cb : KeyEvent → AppCall) (w : World) : Except Fault World := do
  let win ← w.derefWindow
  pure ((w.setWindow { win with keyCallback := some cb }).log [Call.windowSetKeyCallback])

/-- `Window::setMouseCallback`. -/
def Window.setMouseCallback (cb : MouseEvent → AppCall) (w : World) : Except Fault World := do
  let win ← w.derefWindow
  pure ((w.setWindow { win with mouseCallback := some cb }).log [Call.windowSetMouseCallback])

/-- `Window::setScrollCallback`. -/
def Window.setScrollCallback (cb : ScrollEvent → AppCall) (w : World) : Except Fault World := do
  let win ← w.derefWindow
  pure ((w.setWindow { win with scrollCallback := some cb }).log [Call.windowSetScrollCallback])

/-- `Window::show`. -/
def Window.show (w : World) : Except Fault World := do
  let win ← w.derefWindow
  pure ((w.setWindow { win with shown := win.shown + 1 }).log [Call.windowShow])

/-- `Window::shouldClose`. -/
def Window.shouldClose (w : World) : Except Fault (Bool × World) := do
  let win ← w.derefWindow
  pure (win.closeFlag, w.log [Call.windowShouldClose])

/-- `Window::getSize`, the two out-parameters returned as a pair. -/
def Window.getSize (w : World) : Except Fault ((Int × Int) × World) := do
  let win ← w.derefWindow
  pure (win.size, w.log [Call.windowGetSize])

/-- `Window::getFramebufferSize`, the two out-parameters returned as a pair. -/
def Window.getFramebufferSize (w : World) : Except Fault ((Int × Int) × World) := do
  let win ← w.derefWindow
  pure (win.framebufferSize, w.log [Call.windowGetFramebufferSize])

/-- `Window::getGraphicsContext`: the window owns exactly one context. -/
def Window.getGraphicsContext (w : World) : Except Fault World := do
  let _ ← w.derefWindow
  pure (w.log [Call.windowGetGraphicsContext])

/-- `GraphicsContext::clear`. -/
def GraphicsContext.clear (color : ClearColor) (w : World) : World :=
  w.log [Call.contextClear color]

/-! ## Event handlers of `Application` -/

/-- `Application::onResize`. -/
def Application.onResize (width height : Int) (w : World) : Except Fault World := do
  let (drawable, w) ← Window.getFramebufferSize w
  let w := w.log [Call.print (Msg.resized width height)]
  let w := if drawable.1 ≠ width ∨ drawable.2 ≠ height then
      w.log [Call.print (Msg.resizedPixels drawable.1 drawable.2)]
    else w
  pure (w.log [Call.print Msg.newline])

/-- `Application::onClose`. -/
def Application.onClose (w : World) : World :=
  let w := w.log [Call.print Msg.closeRequested]
  { w with app := { w.app with running := false } }

/-- `Application::onKey`. -/
def Application.onKey (event : KeyEvent) (w : World) : World :=
  if event.action = KeyAction.Press then
    let w := w.log [Call.print (Msg.keyPressed event.key)]
    if event.key = KeyCode.Escape then
      { w with app := { w.app with running := false } }
    else w
  else w

/-- `Application::onMouse`. -/
def Application.onMouse (event : MouseEvent) (w : World) : World :=
  if event.action = MouseAction.Press then
    w.log [Call.print (Msg.mouseClick event.x event.y)]
  else w

/-- `Application::onScroll`. -/
def Application.onScroll (event : ScrollEvent) (w : World) : World :=
  w.log [Call.print (Msg.scroll event.xOffset event.yOffset)]

/-- `Application::update`: the body is empty; the call itself is logged. -/
def Application.update (deltaTime : Double) (w : World) : World :=
  w.log [Call.update deltaTime]

/-- The constant `clearColor` of `Application::render`. -/
def Application.clearColor : ClearColor :=
  { r := 1 / 10, g := 1 / 10, b := 2 / 10, a := 1 }

/-- `Application::render`. -/
def Application.render (w : World) : Except Fault World := do
  let w := w.log [Call.render]
  let w ← Window.getGraphicsContext w
  pure (GraphicsContext.clear Application.clearColor w)

/-- Run the body of a registered closure: it forwards to one handler. -/
def Application.handle (c : AppCall) (w : World) : Except Fault World :=
  let w := w.log [Call.callback c]
  match c with
  | AppCall.onResize width height => Application.onResize width height w
  | AppCall.onClose => pure (Application.onClose w)
  | AppCall.onKey e => pure (Application.onKey e w)
  | AppCall.onMouse e => pure (Application.onMouse e w)
  | AppCall.onScroll e => pure (Application.onScroll e w)

/-- Modelled from the spec: how a backend delivers one native event to the
live window: it invokes the matching callback slot when one is registered, and
a close request sets the flag read by `shouldClose()`. -/
def Window.dispatch (ev : NativeEvent) (w : World) : Except Fault World :=
  match w.app.window with
  | none => pure w
  | some win =>
    match ev with
    | NativeEvent.key e =>
      match win.keyCallback with
      | none => pure w
      | some cb => Application.handle (cb e) w
    | NativeEvent.mouse e =>
      match win.mouseCallback with
      | none => pure w
      | some cb => Application.handle (cb e) w
    | NativeEvent.scroll e =>
      match win.scrollCallback with
      | none => pure w
      | some cb => Application.handle (cb e) w
    | NativeEvent.resize width height =>
      match win.resizeCallback with
      | none => pure w
      | some cb => Application.handle (cb width height) w
    | NativeEvent.close =>
      match win.closeCallback with
      | none => pure w
      | some cb => Application.handle cb w
    | NativeEvent.requestClose => pure (w.setWindow { win with closeFlag := true })

/-- Deliver a queue of native events in order. -/
def Window.dispatchAll : List NativeEvent → World → Except Fault World
  | [], w => pure w
  | ev :: evs, w => do
    let w ← Window.dispatch ev w
    Window.dispatchAll evs w

/-! ## `PlatformFactory` (`platform/platform_factory.cpp`) -/

/-- `PlatformFactory::create`: the script says whether this call yields an
instance; a new instance is named by the number of the call that made it. -/
def PlatformFactory.create (env : Env) (w : World) : Option Nat × World :=
  let made := if env.create w.creates then some w.creates else none
  (made, { w.log [Call.factoryCreate] with creates := w.creates + 1 })

/-- `PlatformFactory::getInstance`. -/
def PlatformFactory.getInstance (env : Env) (w : World) : Option Nat × World :=
  let w := w.log [Call.factoryGetInstance]
  match w.factoryInstance with
  | some p => (some p, w)
  | none =>
    let r := PlatformFactory.create env w
    (r.1, { r.2 with factoryInstance := r.1 })

/-- Call `PlatformFactory::getInstance` a number of times in a row and collect
the pointers it returns, in call order. -/
def PlatformFactory.getInstanceTimes (env : Env) : Nat → World → List (Option Nat) × World
  | 0, w => ([], w)
  | n + 1, w =>
    let r := PlatformFactory.getInstance env w
    let rest := PlatformFactory.getInstanceTimes env n r.2
    (r.1 :: rest.1, rest.2)

/-! ## `Platform` operations, called through `platform->` -/

/-- `Platform::initialize`. -/
def Platform.initialize (env : Env) (w : World) : Except Fault (Bool × World) := do
  let _ ← w.derefPlatform
  let ok := env.platformInitialize w.platform.initializeCalls
  pure (ok, { w.log [Call.platformInitialize] with
    platform := { w.platform with initializeCalls := w.platform.initializeCalls + 1 } })

/-- `Platform::shutdown`. -/
def Platform.shutdown (w : World) : Except Fault World := do
  let _ ← w.derefPlatform
  pure { w.log [Call.platformShutdown] with
    platform := { w.platform with shutdownCalls := w.platform.shutdownCalls + 1 } }

/-- `Platform::getPlatformName`. -/
def Platform.getPlatformName (env : Env) (w : World) : Except Fault (String × World) := do
  let _ ← w.derefPlatform
  pure (env.platformName, w.log [Call.platformGetPlatformName])

/-- `Platform::createWindow`. -/
def Platform.createWindow (env : Env) (config : WindowConfig) (w : World) :
    Except Fault (Option Window × World) := do
  let _ ← w.derefPlatform
  let created := env.createWindow w.platform.windowsCreated config
  pure (created, { w.log [Call.platformCreateWindow config] with
    platform := { w.platform with windowsCreated := w.platform.windowsCreated + 1 } })

/-- `Platform::getTime`: the next sample of the scripted clock. -/
def Platform.getTime (env : Env) (w : World) : Except Fault (Double × World) := do
  let _ ← w.derefPlatform
  let now := env.getTime w.platform.timeCalls
  pure (now, { w.log [Call.platformGetTime] with
    platform := { w.platform with timeCalls := w.platform.timeCalls + 1 } })

/-- `Platform::pollEvents`: drains the scripted queue, invoking the callbacks
synchronously before it returns. -/
def Platform.pollEvents (env : Env) (w : World) : Except Fault World := do
  let _ ← w.derefPlatform
  let events := env.pollEvents w.platform.polls
  let w := { w.log [Call.platformPollEvents] with
    platform := { w.platform with polls := w.platform.polls + 1 } }
  Window.dispatchAll events w

/-! ## `Application` lifecycle (`application/application.cpp`) -/

/-- Assignment to the `std::unique_ptr<Window>` member: the window owned
before, if any, is destroyed. -/
def Application.assignWindow (created : Option Window) (w : World) : World :=
  let w := if w.app.window.isSome then w.log [Call.windowDestroy] else w
  { w with app := { w.app with window := created } }

/-- `Application::initialize`. -/
def Application.initialize (env : Env) (config : WindowConfig) (w : World) :
    Except Fault (Bool × World) :=
  let r := PlatformFactory.getInstance env w
  let w := { r.2 with app := { r.2.app with platform := r.1 } }
  if w.app.platform.isNone then
    pure (false, w.log [Call.print Msg.failedCreatePlatform])
  else do
    let (ok, w) ← Platform.initialize env w
    if !ok then
      pure (false, w.log [Call.print Msg.failedInitPlatform])
    else do
      let (name, w) ← Platform.getPlatformName env w
      let w := w.log [Call.print (Msg.platformName name)]
      let (created, w) ← Platform.createWindow env config w
      let w := Application.assignWindow created w
      if w.app.window.isNone then
        pure (false, w.log [Call.print Msg.failedCreateWindow])
      else do
        let w ← Window.setResizeCallback (fun width height => AppCall.onResize width height) w
        let w ← Window.setCloseCallback AppCall.onClose w
        let w ← Window.setKeyCallback (fun e => AppCall.onKey e) w
        let w ← Window.setMouseCallback (fun e => AppCall.onMouse e) w
        let w ← Window.setScrollCallback (fun e => AppCall.onScroll e) w
        let w ← Window.show w
        let (size, w) ← Window.getSize w
        let (drawable, w) ← Window.getFramebufferSize w
        let w := w.log [Call.print (Msg.windowSize size.1 size.2)]
        let w := w.log [Call.print (Msg.drawableSize drawable.1 drawable.2)]
        let w := if drawable.1 ≠ size.1 ∨ drawable.2 ≠ size.2 then
            w.log [Call.print (Msg.retinaScaling drawable.1 size.1)]
          else w
        let w := w.log [Call.print Msg.newline]
        let w := { w with app := { w.app with running := true } }
        let (now, w) ← Platform.getTime env w
        pure (true, { w with app := { w.app with lastFrameTime := now } })

/-- The loop test `running && !window->shouldClose()`; the window is only
queried when `running` is true. -/
def Application.loopCondition (w : World) : Except Fault (Bool × World) :=
  if w.app.running then do
    let (close, w) ← Window.shouldClose w
    pure (!close, w)
  else pure (false, w)

/-- One pass through the body of the loop of `Application::run`. -/
def Application.frame (env : Env) (w : World) : Except Fault World := do
  let w ← Platform.pollEvents env w
  let (currentTime, w) ← Platform.getTime env w
  let deltaTime := Double.sub currentTime w.app.lastFrameTime
  let w := { w with app := { w.app with lastFrameTime := currentTime } }
  let w := Application.update deltaTime w
  Application.render w

/-- `Application::run`, with a budget of loop iterations: running out of it is
the result `Fault.outOfFuel`. -/
def Application.run (env : Env) : Nat → World → Except Fault World
  | 0, w => do
    let (go, w) ← Application.loopCondition w
    if go then Except.error Fault.outOfFuel else pure w
  | fuel + 1, w => do
    let (go, w) ← Application.loopCondition w
    if go then do
      let w ← Application.frame env w
      Application.run env fuel w
    else pure w

/-- `Application::shutdown`. -/
def Application.shutdown (w : World) : Except Fault World := do
  let w := if w.app.window.isSome then Application.assignWindow none w else w
  let w ← if w.app.platform.isSome then Platform.shutdown w else pure w
  pure { w with app := { w.app with running := false } }

/-- `Application::~Application`. -/
def Application.destructor (w : World) : Except Fault World :=
  Application.shutdown w

/-- Call `shutdown()` a number of times in a row. -/
def Application.shutdownTimes : Nat → World → Except Fault World
  | 0, w => pure w
  | n + 1, w => do
    let w ← Application.shutdown w
    Application.shutdownTimes n w

/-- Call the close handler a number of times in a row. -/
def Application.onCloseTimes : Nat → World → World
  | 0, w => w
  | n + 1, w => Application.onCloseTimes n (Application.onClose w)

/-- Call `initialize` once per entry, each call against its own script. -/
def Application.initializeAll : List (Env × WindowConfig) → World → Except Fault World
  | [], w => pure w
  | step :: steps, w => do
    let (_, w) ← Application.initialize step.1 step.2 w
    Application.initializeAll steps w

/-- The program entry `main` (`main.cpp`), from the state at process start, with
the exit status as result. The local `app` is destroyed on both ways out, and
the call of `app.run()` is logged. -/
def main (env : Env) (fuel : Nat) : Except Fault (Int × World) := do
  let w : World := {}
  let config : WindowConfig := {}
  let (ok, w) ← Application.initialize env config w
  if !ok then do
    let w := w.log [Call.print (Msg.mainFailed config.title)]
    let w ← Application.destructor w
    pure (1, w)
  else do
    let w := w.log [Call.print (Msg.mainInitialized config.title)]
    let w := w.log [Call.run]
    let w ← Application.run env fuel w
    let w ← Application.shutdown w
    let w ← Application.destructor w
    pure (0, w)

/-! ## A concrete script -/

/-- A window as a working backend would create it for a configuration, on a
display with twice as many pixels as points. -/
def sampleWindow (config : WindowConfig) : Window :=
  { size := (config.width, config.height),
    framebufferSize := (2 * config.width, 2 * config.height) }

/-- A script in which every step of start-up succeeds, the clock advances by
one second per sample and the second `pollEvents` call delivers a close. -/
def sampleEnv : Env :=
  { create := fun _ => true,
    platformInitialize := fun _ => true,
    createWindow := fun _ config => some (sampleWindow config),
    getTime := fun n => Double.finite (n : ℚ),
    pollEvents := fun n => if n = 1 then [NativeEvent.close] else [] }

/-- A script whose factory yields no platform. -/
def noPlatformEnv : Env := { sampleEnv with create := fun _ => false }

/-- A script whose platform fails to initialise. -/
def noInitEnv : Env := { sampleEnv with platformInitialize := fun _ => false }

/-- A script whose platform creates no window. -/
def noWindowEnv : Env := { sampleEnv with createWindow := fun _ _ => none }

/-- A script like `sampleEnv`, except that the second `pollEvents` call sets the
window's close flag and invokes no callback. -/
def closeFlagEnv : Env :=
  { sampleEnv with pollEvents := fun n => if n = 1 then [NativeEvent.requestClose] else [] }

/-- A script like `sampleEnv`, except that the clock reads positive infinity at
every sample. -/
def infClockEnv : Env := { sampleEnv with getTime := fun _ => Double.posInf }

/-- The state a fresh application is in after `initialize` against `sampleEnv`. -/
def sampleWorld : World :=
  match Application.initialize sampleEnv {} {} with
  | Except.ok r => r.2
  | Except.error _ => {}

/-- The state of `sampleWorld` after one `shutdown()`. -/
def stoppedWorld : World :=
  match Application.shutdown sampleWorld with
  | Except.ok w => w
  | Except.error _ => {}

/-! ## Vocabulary of the statements -/

/-- The five callback slots hold the closures that `Application::initialize`
registers. -/
def Window.wired (win : Window) : Prop :=
  win.resizeCallback = some (fun width height => AppCall.onResize width height) ∧
  win.closeCallback = some AppCall.onClose ∧
  win.keyCallback = some (fun e => AppCall.onKey e) ∧
  win.mouseCallback = some (fun e => AppCall.onMouse e) ∧
  win.scrollCallback = some (fun e => AppCall.onScroll e)

/-- The state `initialize` leaves on success: a platform is referenced and a
window with the five callbacks registered is owned. -/
def World.ready (w : World) : Prop :=
  (∃ p, w.app.platform = some p) ∧ ∃ win, w.app.window = some win ∧ win.wired

/-- A native event that makes a wired window stop the application: the close
callback, or the key callback with a Press of Escape. -/
def NativeEvent.stops : NativeEvent → Bool
  | NativeEvent.close => true
  | NativeEvent.key e => decide (e.key = KeyCode.Escape ∧ e.action = KeyAction.Press)
  | _ => false

/-- A native event that makes `shouldClose()` true. -/
def NativeEvent.closes : NativeEvent → Bool
  | NativeEvent.requestClose => true
  | _ => false

/-- A `pollEvents` call triggers closure when its queue holds an event that
stops the application or sets the close flag. -/
def Env.triggers (env : Env) (i : Nat) : Bool :=
  (env.pollEvents i).any (fun ev => ev.stops || ev.closes)

/-- Whether one of the `n` polls numbered from `start` on holds an event that
stops the application. -/
def Env.stopsIn (env : Env) (start n : Nat) : Bool :=
  (List.range n).any (fun i => (env.pollEvents (start + i)).any NativeEvent.stops)

/-- The member lastFrameTime holds the latest sample the clock has given out. -/
def World.clocked (env : Env) (w : World) : Prop :=
  ∃ n, w.platform.timeCalls = n + 1 ∧ w.app.lastFrameTime = env.getTime n

/-- Log entries that start-up and shutdown write: the factory and platform
calls up to the creation of the window, printed lines and
`Platform::shutdown`. -/
def Call.isStartup : Call → Bool
  | Call.factoryGetInstance => true
  | Call.factoryCreate => true
  | Call.platformInitialize => true
  | Call.platformGetPlatformName => true
  | Call.platformCreateWindow _ => true
  | Call.platformShutdown => true
  | Call.print _ => true
  | _ => false

/-- Log entries that the dispatch of a callback can add. -/
def Call.isDispatch : Call → Bool
  | Call.callback _ => true
  | Call.print _ => true
  | Call.windowGetFramebufferSize => true
  | _ => false

/-- What delivering the events `evs` to a wired window does to the state. -/
structure Delivered (evs : List NativeEvent) (w w2 : World) : Prop where
  window : ∃ win, w.app.window = some win ∧ win.wired ∧
    w2.app.window = some { win with closeFlag := win.closeFlag || evs.any NativeEvent.closes }
  running : w2.app.running = (w.app.running && !evs.any NativeEvent.stops)
  appPlatform : w2.app.platform = w.app.platform
  lastFrameTime : w2.app.lastFrameTime = w.app.lastFrameTime
  platform : w2.platform = w.platform
  factoryInstance : w2.factoryInstance = w.factoryInstance
  creates : w2.creates = w.creates
  trace : ∃ cbs, w2.trace = w.trace ++ cbs ∧ ∀ c ∈ cbs, c.isDispatch = true

/-! ## Basic facts about the operations -/

@[simp] theorem derefWindow_some {w : World} {win : Window} (h : w.app.window = some win) :
    w.derefWindow = Except.ok win := by
  simp [World.derefWindow, h]

@[simp] theorem derefPlatform_some {w : World} {p : Nat} (h : w.app.platform = some p) :
    w.derefPlatform = Except.ok p := by
  simp [World.derefPlatform, h]

/-- `shutdown()` returns from every state, and leaves the released state. -/
theorem shutdown_released (w : World) :
    ∃ w2, Application.shutdown w = Except.ok w2 ∧ w2.app.window = none ∧
      w2.app.running = false ∧ w2.app.platform = w.app.platform ∧
      w2.app.lastFrameTime = w.app.lastFrameTime := by
  rcases w with ⟨⟨p, win, r, t⟩, f, c, pl, tr⟩
  cases p <;> cases win <;>
    simp [Application.shutdown, Application.assignWindow, Platform.shutdown, World.log,
      World.derefPlatform, bind, Except.bind, pure, Except.pure]

/-- Any positive number of `shutdown()` calls returns and leaves the released state. -/
theorem shutdownTimes_released (n : Nat) (w : World) :
    ∃ w2, Application.shutdownTimes (n + 1) w = Except.ok w2 ∧ w2.app.window = none ∧
      w2.app.running = false := by
  induction n generalizing w with
  | zero =>
    obtain ⟨w2, h, hw, hr, _⟩ := shutdown_released w
    exact ⟨w2, by simp [Application.shutdownTimes, h, bind, Except.bind, pure, Except.pure], hw, hr⟩
  | succ n ih =>
    obtain ⟨w1, h, _⟩ := shutdown_released w
    obtain ⟨w2, h2, hw, hr⟩ := ih w1
    refine ⟨w2, ?_, hw, hr⟩
    rw [Application.shutdownTimes]
    simp only [h, bind, Except.bind]
    exact h2

theorem wired_closeFlag {win : Window} (h : win.wired) (b : Bool) :
    Window.wired { win with closeFlag := b } := h

/-- Delivering one event to a wired window. -/
theorem dispatch_delivered (ev : NativeEvent) (w : World) (win : Window)
    (hw : w.app.window = some win) (hwired : win.wired) :
    ∃ w2, Window.dispatch ev w = Except.ok w2 ∧ Delivered [ev] w w2 := by
  rcases w with ⟨⟨p, win0, r, t⟩, f, c, pl, tr⟩
  simp only at hw
  subst hw
  rcases win with ⟨sz, fb, cf, sh, kc, mc, sc, rc, cc⟩
  obtain ⟨h1, h2, h3, h4, h5⟩ := hwired
  simp only at h1 h2 h3 h4 h5
  subst h1 h2 h3 h4 h5
  have hwired : Window.wired ⟨sz, fb, cf, sh, some (fun e => AppCall.onKey e),
      some (fun e => AppCall.onMouse e), some (fun e => AppCall.onScroll e),
      some (fun width height => AppCall.onResize width height), some AppCall.onClose⟩ :=
    ⟨rfl, rfl, rfl, rfl, rfl⟩
  cases ev with
  | key e =>
    refine ⟨_, rfl, ⟨_, rfl, hwired, ?_⟩, ?_, ?_, ?_, ?_, ?_, ?_, ?_⟩ <;>
      by_cases ha : e.action = KeyAction.Press <;> by_cases hk : e.key = KeyCode.Escape <;>
      simp [Application.onKey, World.log, ha, hk, NativeEvent.closes, NativeEvent.stops,
        Call.isDispatch]
  | mouse e =>
    refine ⟨_, rfl, ⟨_, rfl, hwired, ?_⟩, ?_, ?_, ?_, ?_, ?_, ?_, ?_⟩ <;>
      by_cases ha : e.action = MouseAction.Press <;>
      simp [Application.onMouse, World.log, ha, NativeEvent.closes, NativeEvent.stops,
        Call.isDispatch]
  | scroll e =>
    refine ⟨_, rfl, ⟨_, rfl, hwired, ?_⟩, ?_, ?_, ?_, ?_, ?_, ?_, ?_⟩ <;>
      simp [Application.onScroll, World.log, NativeEvent.closes, NativeEvent.stops,
        Call.isDispatch]
  | resize a b =>
    refine ⟨_, rfl, ⟨_, rfl, hwired, ?_⟩, ?_, ?_, ?_, ?_, ?_, ?_, ?_⟩ <;>
      by_cases hd : fb.1 ≠ a ∨ fb.2 ≠ b <;>
      simp [World.log, hd, NativeEvent.closes, NativeEvent.stops, Call.isDispatch]
  | close =>
    refine ⟨_, rfl, ⟨_, rfl, hwired, ?_⟩, ?_, ?_, ?_, ?_, ?_, ?_, ?_⟩ <;>
      simp [Application.onClose, World.log, NativeEvent.closes, NativeEvent.stops,
        Call.isDispatch]
  | requestClose =>
    refine ⟨_, rfl, ⟨_, rfl, hwired, ?_⟩, ?_, ?_, ?_, ?_, ?_, ?_, ?_⟩ <;>
      simp [World.setWindow, NativeEvent.closes, NativeEvent.stops]

theorem Delivered.nil (w : World) (win : Window) (hw : w.app.window = some win)
    (hwired : win.wired) : Delivered [] w w :=
  ⟨⟨win, hw, hwired, by simp [hw]⟩, by simp, rfl, rfl, rfl, rfl, rfl, ⟨[], by simp, by simp⟩⟩

theorem Delivered.append {evs1 evs2 : List NativeEvent} {w w1 w2 : World}
    (h1 : Delivered evs1 w w1) (h2 : Delivered evs2 w1 w2) :
    Delivered (evs1 ++ evs2) w w2 := by
  obtain ⟨win, hw, hwired, hw1⟩ := h1.window
  obtain ⟨win1, hw1', _, hw2⟩ := h2.window
  rw [hw1] at hw1'
  cases hw1'
  obtain ⟨cbs1, ht1, hc1⟩ := h1.trace
  obtain ⟨cbs2, ht2, hc2⟩ := h2.trace
  refine ⟨⟨win, hw, hwired, ?_⟩, ?_, ?_, ?_, ?_, ?_, ?_, ⟨cbs1 ++ cbs2, ?_, ?_⟩⟩
  · rw [hw2]
    simp [Bool.or_assoc]
  · rw [h2.running, h1.running]
    simp [Bool.and_assoc]
  · rw [h2.appPlatform, h1.appPlatform]
  · rw [h2.lastFrameTime, h1.lastFrameTime]
  · rw [h2.platform, h1.platform]
  · rw [h2.factoryInstance, h1.factoryInstance]
  · rw [h2.creates, h1.creates]
  · rw [ht2, ht1, List.append_assoc]
  · intro c hc
    rcases List.mem_append.1 hc with h | h
    · exact hc1 c h
    · exact hc2 c h

/-- Delivering a queue of events to a wired window. -/
theorem dispatchAll_delivered (evs : List NativeEvent) (w : World) (win : Window)
    (hw : w.app.window = some win) (hwired : win.wired) :
    ∃ w2, Window.dispatchAll evs w = Except.ok w2 ∧ Delivered evs w w2 := by
  induction evs generalizing w win with
  | nil => exact ⟨w, rfl, Delivered.nil w win hw hwired⟩
  | cons ev evs ih =>
    obtain ⟨w1, h1, d1⟩ := dispatch_delivered ev w win hw hwired
    obtain ⟨win0, _, hwired0, hw1⟩ := d1.window
    obtain ⟨w2, h2, d2⟩ := ih w1 _ hw1 (wired_closeFlag hwired0 _)
    refine ⟨w2, ?_, d1.append d2⟩
    rw [Window.dispatchAll]
    simp only [h1, bind, Except.bind]
    exact h2

/-- `pollEvents` on a ready state: one more poll is counted, the call is logged
and the scripted queue is delivered. -/
theorem pollEvents_ready (env : Env) (w : World) (h : w.ready) :
    ∃ w2, Platform.pollEvents env w = Except.ok w2 ∧
      Delivered (env.pollEvents w.platform.polls)
        { w.log [Call.platformPollEvents] with
          platform := { w.platform with polls := w.platform.polls + 1 } } w2 := by
  obtain ⟨⟨p, hp⟩, win, hw, hwired⟩ := h
  obtain ⟨w2, h2, d2⟩ := dispatchAll_delivered (env.pollEvents w.platform.polls)
    { w.log [Call.platformPollEvents] with
      platform := { w.platform with polls := w.platform.polls + 1 } } win hw hwired
  refine ⟨w2, ?_, d2⟩
  simp only [Platform.pollEvents, derefPlatform_some hp, bind, Except.bind]
  exact h2

/-- The state in which `pollEvents` starts delivering: the call is logged and
counted. -/
theorem frame_ready (env : Env) (w : World) (h : w.ready) :
    ∃ wp, Platform.pollEvents env w = Except.ok wp ∧
      Delivered (env.pollEvents w.platform.polls)
        { w.log [Call.platformPollEvents] with
          platform := { w.platform with polls := w.platform.polls + 1 } } wp ∧
      Application.frame env w = Except.ok
        { wp with
          app := { wp.app with lastFrameTime := env.getTime wp.platform.timeCalls },
          platform := { wp.platform with timeCalls := wp.platform.timeCalls + 1 },
          trace := wp.trace ++ [Call.platformGetTime,
            Call.update (Double.sub (env.getTime wp.platform.timeCalls) wp.app.lastFrameTime),
            Call.render, Call.windowGetGraphicsContext,
            Call.contextClear Application.clearColor] } := by
  obtain ⟨wp, hp, d⟩ := pollEvents_ready env w h
  refine ⟨wp, hp, d, ?_⟩
  obtain ⟨⟨p, hpl⟩, _⟩ := h
  obtain ⟨win, _, _, hwin⟩ := d.window
  have hpp : wp.app.platform = some p := by rw [d.appPlatform]; exact hpl
  simp [Application.frame, hp, Platform.getTime, World.derefPlatform, hpp, Application.update,
    Application.render, Window.getGraphicsContext, World.derefWindow, hwin,
    GraphicsContext.clear, World.log, bind, Except.bind, pure, Except.pure]

theorem count_poll_dispatch {cbs : List Call} (h : ∀ c ∈ cbs, c.isDispatch = true) :
    cbs.count Call.platformPollEvents = 0 := by
  rw [List.count_eq_zero]
  intro hmem
  have := h _ hmem
  simp [Call.isDispatch] at this

/-- What one pass through the loop body does to the fields the loop test reads
and to the number of polls. -/
theorem frame_effect (env : Env) (w : World) (h : w.ready) :
    ∃ wf, Application.frame env w = Except.ok wf ∧ wf.ready ∧
      wf.app.running =
        (w.app.running && !(env.pollEvents w.platform.polls).any NativeEvent.stops) ∧
      (∃ win, w.app.window = some win ∧ wf.app.window = some { win with closeFlag :=
        (win.closeFlag || (env.pollEvents w.platform.polls).any NativeEvent.closes) }) ∧
      wf.platform.polls = w.platform.polls + 1 ∧
      wf.trace.count Call.platformPollEvents = w.trace.count Call.platformPollEvents + 1 := by
  obtain ⟨wp, _, d, hf⟩ := frame_ready env w h
  obtain ⟨⟨p, hpl⟩, _⟩ := h
  obtain ⟨win, hw, hwired, hwin⟩ := d.window
  obtain ⟨cbs, htr, hcbs⟩ := d.trace
  have hpp : wp.app.platform = some p := by rw [d.appPlatform]; exact hpl
  refine ⟨_, hf, ⟨⟨p, hpp⟩, _, hwin, wired_closeFlag hwired _⟩, ?_, ⟨win, hw, hwin⟩, ?_, ?_⟩
  · exact d.running
  · simp [d.platform]
  · simp [htr, World.log, List.count_append, count_poll_dispatch hcbs, List.count_cons,
      List.count_nil]

theorem run_stopped (env : Env) (fuel : Nat) (w : World) (h : w.app.running = false) :
    Application.run env fuel w = Except.ok w := by
  cases fuel <;>
    simp [Application.run, Application.loopCondition, h, bind, Except.bind, pure, Except.pure]

theorem run_closed (env : Env) (fuel : Nat) (w : World) (win : Window)
    (hr : w.app.running = true) (hw : w.app.window = some win) (hc : win.closeFlag = true) :
    Application.run env fuel w = Except.ok (w.log [Call.windowShouldClose]) := by
  cases fuel <;>
    simp [Application.run, Application.loopCondition, hr, Window.shouldClose,
      World.derefWindow, hw, hc, bind, Except.bind, pure, Except.pure]

theorem run_step (env : Env) (fuel : Nat) (w wf : World) (win : Window)
    (hr : w.app.running = true) (hw : w.app.window = some win) (hc : win.closeFlag = false)
    (hf : Application.frame env (w.log [Call.windowShouldClose]) = Except.ok wf) :
    Application.run env (fuel + 1) w = Application.run env fuel wf := by
  simp [Application.run, Application.loopCondition, hr, Window.shouldClose,
    World.derefWindow, hw, hc, hf, bind, Except.bind, pure, Except.pure]

theorem ready_log {w : World} (h : w.ready) (cs : List Call) : (w.log cs).ready := h

theorem triggers_false {env : Env} {i : Nat} (h : env.triggers i = false) :
    (env.pollEvents i).any NativeEvent.stops = false ∧
      (env.pollEvents i).any NativeEvent.closes = false := by
  simp only [Env.triggers, List.any_eq_false, Bool.or_eq_true, not_or] at h
  constructor <;> simp only [List.any_eq_false] <;> intro ev hev
  · exact (h ev hev).1
  · exact (h ev hev).2

theorem triggers_true {env : Env} {i : Nat} (h : env.triggers i = true) :
    (env.pollEvents i).any NativeEvent.stops = true ∨
      (env.pollEvents i).any NativeEvent.closes = true := by
  simp only [Env.triggers, List.any_eq_true, Bool.or_eq_true] at h
  obtain ⟨ev, hev, h | h⟩ := h
  · exact Or.inl (List.any_eq_true.2 ⟨ev, hev, h⟩)
  · exact Or.inr (List.any_eq_true.2 ⟨ev, hev, h⟩)

/-- The loop of `run()` when the poll numbered `k` from now is the first to
trigger closure: it returns after `k + 1` polls. -/
theorem run_polls (env : Env) (k : Nat) : ∀ (w : World) (fuel : Nat), w.ready →
    w.app.running = true → (∃ win, w.app.window = some win ∧ win.closeFlag = false) →
    (∀ j, j < k → env.triggers (w.platform.polls + j) = false) →
    env.triggers (w.platform.polls + k) = true → k + 1 ≤ fuel →
    ∃ w2, Application.run env fuel w = Except.ok w2 ∧
      w2.platform.polls = w.platform.polls + (k + 1) ∧
      w2.trace.count Call.platformPollEvents =
        w.trace.count Call.platformPollEvents + (k + 1) ∧
      (w2.app.running = false ∨ ∃ win, w2.app.window = some win ∧ win.closeFlag = true) := by
  induction k with
  | zero =>
    intro w fuel hready hr ⟨win, hw, hc⟩ _ htrig hfuel
    obtain ⟨fuel, rfl⟩ : ∃ f, fuel = f + 1 := ⟨fuel - 1, by omega⟩
    obtain ⟨wf, hf, _, hrun, ⟨win2, hw2, hwf⟩, hpolls, hcount⟩ :=
      frame_effect env (w.log [Call.windowShouldClose]) (ready_log hready _)
    have hw2 : w.app.window = some win2 := hw2
    rw [hw] at hw2
    cases hw2
    rw [run_step env fuel w wf win hr hw hc hf]
    have hpolls : wf.platform.polls = w.platform.polls + 1 := hpolls
    have hcount : wf.trace.count Call.platformPollEvents =
        w.trace.count Call.platformPollEvents + 1 := by
      rw [hcount]; simp [World.log, List.count_append, List.count_cons, List.count_nil]
    have hrun : wf.app.running =
        (w.app.running && !(env.pollEvents w.platform.polls).any NativeEvent.stops) := hrun
    have hwf : wf.app.window = some { win with closeFlag :=
        (win.closeFlag || (env.pollEvents w.platform.polls).any NativeEvent.closes) } := hwf
    cases hrf : wf.app.running with
    | false =>
      exact ⟨wf, run_stopped env fuel wf hrf, hpolls, hcount, Or.inl hrf⟩
    | true =>
      have hstops : (env.pollEvents w.platform.polls).any NativeEvent.stops = false := by
        rw [hrun, hr] at hrf
        simpa using hrf
      have hcl : (env.pollEvents w.platform.polls).any NativeEvent.closes = true := by
        rcases triggers_true htrig with h | h
        · rw [Nat.add_zero, hstops] at h
          cases h
        · simpa using h
      refine ⟨wf.log [Call.windowShouldClose], ?_, hpolls, ?_, Or.inr ⟨_, hwf, ?_⟩⟩
      · exact run_closed env fuel wf _ hrf hwf (by simp [hcl])
      · simp [World.log, List.count_append, hcount, List.count_cons, List.count_nil]
      · simp [hcl]
  | succ k ih =>
    intro w fuel hready hr ⟨win, hw, hc⟩ hbefore htrig hfuel
    obtain ⟨fuel, rfl⟩ : ∃ f, fuel = f + 1 := ⟨fuel - 1, by omega⟩
    obtain ⟨wf, hf, hreadyf, hrun, ⟨win2, hw2, hwf⟩, hpolls, hcount⟩ :=
      frame_effect env (w.log [Call.windowShouldClose]) (ready_log hready _)
    have hw2 : w.app.window = some win2 := hw2
    rw [hw] at hw2
    cases hw2
    rw [run_step env fuel w wf win hr hw hc hf]
    have hpolls : wf.platform.polls = w.platform.polls + 1 := hpolls
    have hcount : wf.trace.count Call.platformPollEvents =
        w.trace.count Call.platformPollEvents + 1 := by
      rw [hcount]; simp [World.log, List.count_append, List.count_cons, List.count_nil]
    have hrun : wf.app.running =
        (w.app.running && !(env.pollEvents w.platform.polls).any NativeEvent.stops) := hrun
    have hwf : wf.app.window = some { win with closeFlag :=
        (win.closeFlag || (env.pollEvents w.platform.polls).any NativeEvent.closes) } := hwf
    obtain ⟨hs, hcl⟩ := triggers_false (hbefore 0 (Nat.succ_pos k))
    rw [Nat.add_zero] at hs hcl
    obtain ⟨w2, h2, hp2, hc2, hfin⟩ := ih wf fuel hreadyf (by rw [hrun, hr, hs]; rfl)
      ⟨_, hwf, by simp [hc, hcl]⟩
      (fun j hj => by
        have := hbefore (j + 1) (Nat.succ_lt_succ hj)
        rw [hpolls]
        rwa [Nat.add_assoc, Nat.add_comm 1 j])
      (by rw [hpolls]; rwa [Nat.add_assoc, Nat.add_comm 1 k])
      (by omega)
    refine ⟨w2, h2, ?_, ?_, hfin⟩
    · rw [hp2, hpolls]; omega
    · rw [hc2, hcount]; omega

/-- The closed form of a successful `initialize`. -/
theorem initialize_ok_state (env : Env) (config : WindowConfig) (w : World) (p : Nat)
    (win0 : Window) (hp : (PlatformFactory.getInstance env w).1 = some p)
    (hi : env.platformInitialize w.platform.initializeCalls = true)
    (hc : env.createWindow w.platform.windowsCreated config = some win0) :
    ∃ w2, Application.initialize env config w = Except.ok (true, w2) ∧
      w2.app.platform = some p ∧
      w2.app.window = some { win0 with
        shown := win0.shown + 1,
        resizeCallback := some (fun width height => AppCall.onResize width height),
        closeCallback := some AppCall.onClose,
        keyCallback := some (fun e => AppCall.onKey e),
        mouseCallback := some (fun e => AppCall.onMouse e),
        scrollCallback := some (fun e => AppCall.onScroll e) } ∧
      w2.app.running = true ∧
      w2.app.lastFrameTime = env.getTime w.platform.timeCalls ∧
      w2.platform.timeCalls = w.platform.timeCalls + 1 ∧
      w2.trace = w.trace ++ [Call.factoryGetInstance] ++
        (if w.factoryInstance.isSome then [] else [Call.factoryCreate]) ++
        [Call.platformInitialize, Call.platformGetPlatformName,
          Call.print (Msg.platformName env.platformName), Call.platformCreateWindow config] ++
        (if w.app.window.isSome then [Call.windowDestroy] else []) ++
        [Call.windowSetResizeCallback, Call.windowSetCloseCallback, Call.windowSetKeyCallback,
          Call.windowSetMouseCallback, Call.windowSetScrollCallback, Call.windowShow,
          Call.windowGetSize, Call.windowGetFramebufferSize,
          Call.print (Msg.windowSize win0.size.1 win0.size.2),
          Call.print (Msg.drawableSize win0.framebufferSize.1 win0.framebufferSize.2)] ++
        (if win0.framebufferSize.1 ≠ win0.size.1 ∨ win0.framebufferSize.2 ≠ win0.size.2 then
          [Call.print (Msg.retinaScaling win0.framebufferSize.1 win0.size.1)] else []) ++
        [Call.print Msg.newline, Call.platformGetTime] := by
  rcases w with ⟨⟨ap, awin, r, t⟩, f, c, pl, tr⟩
  simp only at hi hc
  by_cases hd : win0.framebufferSize.1 ≠ win0.size.1 ∨ win0.framebufferSize.2 ≠ win0.size.2 <;>
  cases awin <;> cases f <;> cases hcr : env.create c <;>
    simp [PlatformFactory.getInstance, PlatformFactory.create, World.log, hcr] at hp <;>
    subst hp <;>
    simp [ Application.initialize, PlatformFactory.getInstance, PlatformFactory.create, World.log,
      Platform.initialize, World.derefPlatform, World.derefWindow, World.setWindow, hi, hcr, hd,
      bind, Except.bind, pure, Except.pure,
      Platform.getPlatformName, Platform.createWindow, hc, Application.assignWindow,
      Window.setResizeCallback, Window.setCloseCallback,
      Window.setKeyCallback, Window.setMouseCallback, Window.setScrollCallback, Window.show,
      Window.getSize, Window.getFramebufferSize, Platform.getTime]

/-- `initialize` when the factory yields no platform. -/
theorem initialize_no_platform (env : Env) (config : WindowConfig) (w : World)
    (hp : (PlatformFactory.getInstance env w).1 = none) :
    ∃ w2, Application.initialize env config w = Except.ok (false, w2) ∧
      w2.trace = w.trace ++ [Call.factoryGetInstance, Call.factoryCreate,
        Call.print Msg.failedCreatePlatform] ∧
      w2.app = { w.app with platform := none } ∧ w2.platform = w.platform := by
  rcases w with ⟨⟨ap, awin, r, t⟩, f, c, pl, tr⟩
  cases f with
  | some q => simp [PlatformFactory.getInstance, World.log] at hp
  | none =>
    cases hcr : env.create c with
    | true => simp [PlatformFactory.getInstance, PlatformFactory.create, World.log, hcr] at hp
    | false =>
      simp [ Application.initialize, PlatformFactory.getInstance, PlatformFactory.create,
        World.log, hcr, pure, Except.pure]

/-- `initialize` when `Platform::initialize` returns false. -/
theorem initialize_platform_fails (env : Env) (config : WindowConfig) (w : World) (p : Nat)
    (hp : (PlatformFactory.getInstance env w).1 = some p)
    (hi : env.platformInitialize w.platform.initializeCalls = false) :
    ∃ w2, Application.initialize env config w = Except.ok (false, w2) ∧
      w2.trace = w.trace ++ [Call.factoryGetInstance] ++
        (if w.factoryInstance.isSome then [] else [Call.factoryCreate]) ++
        [Call.platformInitialize, Call.print Msg.failedInitPlatform] ∧
      w2.app = { w.app with platform := some p } ∧
      w2.platform = { w.platform with initializeCalls := w.platform.initializeCalls + 1 } := by
  rcases w with ⟨⟨ap, awin, r, t⟩, f, c, pl, tr⟩
  simp only at hi
  cases f <;> cases hcr : env.create c <;>
    simp [PlatformFactory.getInstance, PlatformFactory.create, World.log, hcr] at hp <;>
    subst hp <;>
    simp [ Application.initialize, PlatformFactory.getInstance, PlatformFactory.create, World.log,
      Platform.initialize, World.derefPlatform, hi, hcr, bind, Except.bind, pure, Except.pure]

/-- `initialize` when `createWindow` returns an empty pointer. -/
theorem initialize_no_window (env : Env) (config : WindowConfig) (w : World) (p : Nat)
    (hp : (PlatformFactory.getInstance env w).1 = some p)
    (hi : env.platformInitialize w.platform.initializeCalls = true)
    (hc : env.createWindow w.platform.windowsCreated config = none) :
    ∃ w2, Application.initialize env config w = Except.ok (false, w2) ∧
      w2.trace = w.trace ++ [Call.factoryGetInstance] ++
        (if w.factoryInstance.isSome then [] else [Call.factoryCreate]) ++
        [Call.platformInitialize, Call.platformGetPlatformName,
          Call.print (Msg.platformName env.platformName), Call.platformCreateWindow config] ++
        (if w.app.window.isSome then [Call.windowDestroy] else []) ++
        [Call.print Msg.failedCreateWindow] ∧
      w2.app = { w.app with platform := some p, window := none } ∧
      w2.platform = { w.platform with
        initializeCalls := w.platform.initializeCalls + 1,
        windowsCreated := w.platform.windowsCreated + 1 } := by
  rcases w with ⟨⟨ap, awin, r, t⟩, f, c, pl, tr⟩
  simp only at hi hc
  cases awin <;> cases f <;> cases hcr : env.create c <;>
    simp [PlatformFactory.getInstance, PlatformFactory.create, World.log, hcr] at hp <;>
    subst hp <;>
    simp [ Application.initialize, PlatformFactory.getInstance, PlatformFactory.create, World.log,
      Platform.initialize, World.derefPlatform, hi, hcr, bind, Except.bind, pure, Except.pure,
      Platform.getPlatformName, Platform.createWindow, hc, Application.assignWindow]

/-- `initialize` returns from every state, whatever the collaborators do. -/
theorem initialize_returns (env : Env) (config : WindowConfig) (w : World) :
    ∃ b w2, Application.initialize env config w = Except.ok (b, w2) := by
  cases hp : (PlatformFactory.getInstance env w).1 with
  | none =>
    obtain ⟨w2, h, _⟩ := initialize_no_platform env config w hp
    exact ⟨false, w2, h⟩
  | some p =>
    cases hi : env.platformInitialize w.platform.initializeCalls with
    | false =>
      obtain ⟨w2, h, _⟩ := initialize_platform_fails env config w p hp hi
      exact ⟨false, w2, h⟩
    | true =>
      cases hc : env.createWindow w.platform.windowsCreated config with
      | none =>
        obtain ⟨w2, h, _⟩ := initialize_no_window env config w p hp hi hc
        exact ⟨false, w2, h⟩
      | some win0 =>
        obtain ⟨w2, h, _⟩ := initialize_ok_state env config w p win0 hp hi hc
        exact ⟨true, w2, h⟩

theorem initializeAll_returns (steps : List (Env × WindowConfig)) (w : World) :
    ∃ w2, Application.initializeAll steps w = Except.ok w2 := by
  induction steps generalizing w with
  | nil => exact ⟨w, rfl⟩
  | cons step steps ih =>
    obtain ⟨b, w1, h⟩ := initialize_returns step.1 step.2 w
    obtain ⟨w2, h2⟩ := ih w1
    refine ⟨w2, ?_⟩
    rw [Application.initializeAll]
    simp only [h, bind, Except.bind]
    exact h2

/-- `shutdown()` on a state that owns no window but references a platform. -/
theorem shutdown_again (w : World) (p : Nat) (hw : w.app.window = none)
    (hr : w.app.running = false) (hp : w.app.platform = some p) :
    ∃ w3, Application.shutdown w = Except.ok w3 ∧ w3.app = w.app ∧
      w3.trace = w.trace ++ [Call.platformShutdown] ∧
      w3.platform = { w.platform with shutdownCalls := w.platform.shutdownCalls + 1 } ∧
      w3.factoryInstance = w.factoryInstance ∧ w3.creates = w.creates := by
  rcases w with ⟨⟨ap, awin, r, t⟩, f, c, pl, tr⟩
  simp only at hw hr hp
  subst hw hr hp
  simp [Application.shutdown, Platform.shutdown, World.derefPlatform, World.log, bind,
    Except.bind, pure, Except.pure]

/-- One pass through the loop body, with the log it writes and the clock. -/
theorem frame_trace (env : Env) (w : World) (h : w.ready) :
    ∃ wp cbs wf, Platform.pollEvents env w = Except.ok wp ∧
      wp.trace = w.trace ++ [Call.platformPollEvents] ++ cbs ∧
      (∀ c ∈ cbs, c.isDispatch = true) ∧
      Application.frame env w = Except.ok wf ∧
      wf.trace = wp.trace ++ [Call.platformGetTime,
        Call.update (Double.sub (env.getTime w.platform.timeCalls) w.app.lastFrameTime),
        Call.render, Call.windowGetGraphicsContext,
        Call.contextClear Application.clearColor] ∧
      wf.app.lastFrameTime = env.getTime w.platform.timeCalls ∧
      wf.platform.timeCalls = w.platform.timeCalls + 1 ∧
      wf.app.running = wp.app.running ∧ wf.ready := by
  obtain ⟨wp, hp, d, hf⟩ := frame_ready env w h
  obtain ⟨⟨p, hpl⟩, _⟩ := h
  obtain ⟨win, _, hwired, hwin⟩ := d.window
  obtain ⟨cbs, htr, hcbs⟩ := d.trace
  have hpp : wp.app.platform = some p := by rw [d.appPlatform]; exact hpl
  have htc : wp.platform.timeCalls = w.platform.timeCalls := by rw [d.platform]
  have hlt : wp.app.lastFrameTime = w.app.lastFrameTime := d.lastFrameTime
  refine ⟨wp, cbs, _, hp, ?_, hcbs, hf, ?_, ?_, ?_, rfl,
    ⟨⟨p, hpp⟩, _, hwin, wired_closeFlag hwired _⟩⟩
  · rw [htr]; simp [World.log]
  · simp only [htc, hlt]
  · simp only [htc]
  · simp only [htc]

theorem run_zero_go (env : Env) (w : World) (win : Window)
    (hr : w.app.running = true) (hw : w.app.window = some win) (hc : win.closeFlag = false) :
    Application.run env 0 w = Except.error Fault.outOfFuel := by
  simp [Application.run, Application.loopCondition, hr, Window.shouldClose,
    World.derefWindow, hw, hc, bind, Except.bind, pure, Except.pure]

theorem roundMagnitude_nonneg (n d : Nat) (v : ℚ)
    (h : Double.roundMagnitude n d = some v) : 0 ≤ v := by
  unfold Double.roundMagnitude at h
  simp only at h
  split at h
  · cases h
  · cases h
    exact div_nonneg (Nat.cast_nonneg _) (Nat.cast_nonneg _)

/-- Rounding keeps a result that is not negative at or above zero. -/
theorem round_nonneg (q : ℚ) (h : 0 ≤ q) :
    Double.le (Double.finite 0) (Double.round q) = true := by
  unfold Double.round
  by_cases h0 : q = 0
  · simp [h0, Double.le]
  · have hpos : 0 < q := lt_of_le_of_ne h (Ne.symm h0)
    simp only [h0, hpos, if_false, if_true]
    cases hm : Double.roundMagnitude q.num.toNat q.den with
    | none => rfl
    | some v => simpa [Double.le] using roundMagnitude_nonneg _ _ v hm

/-- The step between two samples of a finite clock that never runs backwards. -/
theorem clock_step_nonneg (env : Env) (hfin : ∀ i, (env.getTime i).isFinite = true)
    (hmono : ∀ i j, i ≤ j → Double.le (env.getTime i) (env.getTime j) = true)
    (n m : Nat) (h : n ≤ m) :
    Double.le (Double.finite 0) (Double.sub (env.getTime m) (env.getTime n)) = true := by
  have hle := hmono n m h
  have hn := hfin n
  have hm := hfin m
  cases hgn : env.getTime n with
  | finite a =>
    cases hgm : env.getTime m with
    | finite b =>
      rw [hgn, hgm] at hle
      simp only [Double.le, decide_eq_true_eq] at hle
      exact round_nonneg (b - a) (sub_nonneg.2 hle)
    | posInf => rw [hgm] at hm; cases hm
    | negInf => rw [hgm] at hm; cases hm
    | nan => rw [hgm] at hm; cases hm
  | posInf => rw [hgn] at hn; cases hn
  | negInf => rw [hgn] at hn; cases hn
  | nan => rw [hgn] at hn; cases hn

/-- A worked case of rounding: an exact value half way between two binary64
values. -/
theorem roundMagnitude_tie : Double.roundMagnitude 18014398509481983 2 = some (2 ^ 53) := by
  have h1 : Nat.log2 18014398509481983 = 53 := by
    have hlt : Nat.log2 18014398509481983 < 54 := (Nat.log2_lt (by norm_num)).2 (by norm_num)
    have hge : ¬ Nat.log2 18014398509481983 < 53 :=
      fun h => absurd ((Nat.log2_lt (by norm_num)).1 h) (by norm_num)
    omega
  have h2 : Nat.log2 2 = 1 := by
    have hlt : Nat.log2 2 < 2 := (Nat.log2_lt (by norm_num)).2 (by norm_num)
    have hge : ¬ Nat.log2 2 < 1 := fun h => absurd ((Nat.log2_lt (by norm_num)).1 h) (by norm_num)
    omega
  have hlog : Double.floorLog2 18014398509481983 2 = 52 := by
    have ht : Int.toNat 52 = 52 := rfl
    have hz : Int.toNat (-52) = 0 := rfl
    simp only [Double.floorLog2, h1, h2]
    norm_num [ht, hz]
  unfold Double.roundMagnitude
  simp only [hlog]
  norm_num [Double.roundHalfEven]

/-- The subtraction rounds: the exact difference of these two values lies half
way between two binary64 values and goes to the even one. -/
theorem sub_rounds_to_even :
    Double.sub (Double.finite (2 ^ 53)) (Double.finite (1 / 2)) = Double.finite (2 ^ 53) := by
  have hq : (2 : ℚ) ^ 53 - 1 / 2 = ((18014398509481983 : ℤ) : ℚ) / ((2 : ℤ) : ℚ) := by
    norm_num
  have hnum : ((2 : ℚ) ^ 53 - 1 / 2).num = 18014398509481983 := by
    rw [hq]
    exact Rat.num_div_eq_of_coprime (by norm_num) (by norm_num)
  have hden : ((2 : ℚ) ^ 53 - 1 / 2).den = 2 := by
    rw [hq]
    have h := @Rat.den_div_eq_of_coprime 18014398509481983 2 (by norm_num) (by norm_num)
    exact_mod_cast h
  have hpos : (0 : ℚ) < 2 ^ 53 - 1 / 2 := by norm_num
  simp only [Double.sub, Double.round, hpos.ne', hpos, if_true, if_false, hnum, hden]
  have hn : (18014398509481983 : ℤ).toNat = 18014398509481983 := rfl
  rw [hn, roundMagnitude_tie]

/-- Under a finite clock that never runs backwards, every `update` a returned
`run()` has logged got a time step that is not below zero. -/
theorem run_updates_nonneg (env : Env) (hfin : ∀ i, (env.getTime i).isFinite = true)
    (hmono : ∀ i j, i ≤ j → Double.le (env.getTime i) (env.getTime j) = true) :
    ∀ (fuel : Nat) (w w3 : World), w.ready → w.clocked env →
      Application.run env fuel w = Except.ok w3 →
      ∀ dt, Call.update dt ∈ w3.trace →
        Call.update dt ∈ w.trace ∨ Double.le (Double.finite 0) dt = true := by
  intro fuel
  induction fuel with
  | zero =>
    intro w w3 hready _ hrun dt hdt
    obtain ⟨_, win, hw, _⟩ := hready
    cases hr : w.app.running with
    | false =>
      rw [run_stopped env 0 w hr] at hrun
      cases hrun
      exact Or.inl hdt
    | true =>
      cases hc : win.closeFlag with
      | false =>
        rw [run_zero_go env w win hr hw hc] at hrun
        cases hrun
      | true =>
        rw [run_closed env 0 w win hr hw hc] at hrun
        cases hrun
        simp [World.log] at hdt
        exact Or.inl hdt
  | succ fuel ih =>
    intro w w3 hready hclock hrun dt hdt
    have hready0 := hready
    obtain ⟨_, win, hw, _⟩ := hready
    cases hr : w.app.running with
    | false =>
      rw [run_stopped env _ w hr] at hrun
      cases hrun
      exact Or.inl hdt
    | true =>
      cases hc : win.closeFlag with
      | true =>
        rw [run_closed env _ w win hr hw hc] at hrun
        cases hrun
        simp [World.log] at hdt
        exact Or.inl hdt
      | false =>
        obtain ⟨wp, cbs, wf, _, htp, hcbs, hf, htf, hlast, htc, _, hreadyf⟩ :=
          frame_trace env (w.log [Call.windowShouldClose]) (ready_log hready0 _)
        rw [run_step env fuel w wf win hr hw hc hf] at hrun
        obtain ⟨n, hn, hl⟩ := hclock
        have htc : wf.platform.timeCalls = w.platform.timeCalls + 1 := htc
        have hlast : wf.app.lastFrameTime = env.getTime w.platform.timeCalls := hlast
        have hclockf : wf.clocked env := ⟨w.platform.timeCalls, htc, hlast⟩
        rcases ih wf w3 hreadyf hclockf hrun dt hdt with h | h
        · rw [htf, htp] at h
          simp only [World.log, List.mem_append, List.mem_cons, List.mem_singleton,
            List.mem_nil_iff, or_false] at h
          rcases h with ((((h | h) | h) | h) | h)
          · exact Or.inl h
          · cases h
          · cases h
          · have := hcbs _ h
            simp [Call.isDispatch] at this
          · simp only [reduceCtorEq, false_or, or_false, Call.update.injEq] at h
            right
            rw [h, hl]
            exact clock_step_nonneg env hfin hmono n w.platform.timeCalls (by omega)
        · exact Or.inr h

/-- A successful `initialize` leaves the state ready, with lastFrameTime the
latest clock sample. -/
theorem initialize_true_state (env : Env) (config : WindowConfig) (w w1 : World)
    (h : Application.initialize env config w = Except.ok (true, w1)) :
    w1.ready ∧ w1.clocked env := by
  cases hp : (PlatformFactory.getInstance env w).1 with
  | none =>
    obtain ⟨w2, h2, _⟩ := initialize_no_platform env config w hp
    rw [h2] at h
    simp at h
  | some p =>
    cases hi : env.platformInitialize w.platform.initializeCalls with
    | false =>
      obtain ⟨w2, h2, _⟩ := initialize_platform_fails env config w p hp hi
      rw [h2] at h
      simp at h
    | true =>
      cases hc : env.createWindow w.platform.windowsCreated config with
      | none =>
        obtain ⟨w2, h2, _⟩ := initialize_no_window env config w p hp hi hc
        rw [h2] at h
        simp at h
      | some win0 =>
        obtain ⟨w2, h2, hpl, hwin, _, ht, htc, _⟩ :=
          initialize_ok_state env config w p win0 hp hi hc
        rw [h2] at h
        simp only [Except.ok.injEq, Prod.mk.injEq, true_and] at h
        subst h
        exact ⟨⟨⟨p, hpl⟩, _, hwin, ⟨rfl, rfl, rfl, rfl, rfl⟩⟩, ⟨_, htc, ht⟩⟩

theorem sampleWorld_ready : sampleWorld.ready :=
  ⟨⟨0, rfl⟩, _, rfl, ⟨rfl, rfl, rfl, rfl, rfl⟩⟩

theorem sampleEnv_mono :
    ∀ i j, i ≤ j → Double.le (sampleEnv.getTime i) (sampleEnv.getTime j) = true := by
  intro i j hij
  simp only [sampleEnv, Double.le, decide_eq_true_eq]
  exact Nat.cast_le.2 hij

/-- Repeated `getInstance` calls once the factory holds an instance. -/
theorem getInstanceTimes_held (env : Env) (n : Nat) (w : World) (p : Nat)
    (h : w.factoryInstance = some p) :
    PlatformFactory.getInstanceTimes env n w =
      (List.replicate n (some p), w.log (List.replicate n Call.factoryGetInstance)) := by
  induction n generalizing w with
  | zero => simp [PlatformFactory.getInstanceTimes, World.log]
  | succ n ih =>
    have hg : PlatformFactory.getInstance env w = (some p, w.log [Call.factoryGetInstance]) := by
      simp [PlatformFactory.getInstance, World.log, h]
    rw [PlatformFactory.getInstanceTimes]
    simp only [hg]
    rw [ih (w.log [Call.factoryGetInstance]) h]
    simp [World.log, List.replicate_succ]

/-- A successful `initialize` polls no events and leaves running true. -/
theorem initialize_ok_polls (env : Env) (config : WindowConfig) (w : World) (p : Nat)
    (win0 : Window) (hp : (PlatformFactory.getInstance env w).1 = some p)
    (hi : env.platformInitialize w.platform.initializeCalls = true)
    (hc : env.createWindow w.platform.windowsCreated config = some win0) :
    ∃ w2, Application.initialize env config w = Except.ok (true, w2) ∧
      w2.platform.polls = w.platform.polls := by
  rcases w with ⟨⟨ap, awin, r, t⟩, f, c, pl, tr⟩
  simp only at hi hc
  by_cases hd : win0.framebufferSize.1 ≠ win0.size.1 ∨ win0.framebufferSize.2 ≠ win0.size.2 <;>
  cases awin <;> cases f <;> cases hcr : env.create c <;>
    simp [PlatformFactory.getInstance, PlatformFactory.create, World.log, hcr] at hp <;>
    subst hp <;>
    simp [ Application.initialize, PlatformFactory.getInstance, PlatformFactory.create, World.log,
      Platform.initialize, World.derefPlatform, World.derefWindow, World.setWindow, hi, hcr, hd,
      bind, Except.bind, pure, Except.pure,
      Platform.getPlatformName, Platform.createWindow, hc, Application.assignWindow,
      Window.setResizeCallback, Window.setCloseCallback,
      Window.setKeyCallback, Window.setMouseCallback, Window.setScrollCallback, Window.show,
      Window.getSize, Window.getFramebufferSize, Platform.getTime]

/-- What a successful `initialize` leaves, as far as `main` needs it. -/
theorem initialize_true_main (env : Env) (config : WindowConfig) (w w1 : World)
    (h : Application.initialize env config w = Except.ok (true, w1)) :
    w1.ready ∧ w1.platform.polls = w.platform.polls := by
  refine ⟨(initialize_true_state env config w w1 h).1, ?_⟩
  cases hp : (PlatformFactory.getInstance env w).1 with
  | none =>
    obtain ⟨w2, h2, _⟩ := initialize_no_platform env config w hp
    rw [h2] at h
    simp at h
  | some p =>
    cases hi : env.platformInitialize w.platform.initializeCalls with
    | false =>
      obtain ⟨w2, h2, _⟩ := initialize_platform_fails env config w p hp hi
      rw [h2] at h
      simp at h
    | true =>
      cases hc : env.createWindow w.platform.windowsCreated config with
      | none =>
        obtain ⟨w2, h2, _⟩ := initialize_no_window env config w p hp hi hc
        rw [h2] at h
        simp at h
      | some win0 =>
        obtain ⟨w2, h2, hpolls⟩ := initialize_ok_polls env config w p win0 hp hi hc
        rw [h2] at h
        simp only [Except.ok.injEq, Prod.mk.injEq, true_and] at h
        subst h
        exact hpolls

/-- A failed `initialize` of a fresh application owns no window and has logged
start-up entries only. -/
theorem initialize_false_fresh (env : Env) (config : WindowConfig) (w1 : World)
    (h : Application.initialize env config {} = Except.ok (false, w1)) :
    w1.app.window = none ∧ ∀ c ∈ w1.trace, c.isStartup = true := by
  cases hp : (PlatformFactory.getInstance env {}).1 with
  | none =>
    obtain ⟨w2, h2, ht, ha, _⟩ := initialize_no_platform env config {} hp
    rw [h2] at h
    simp only [Except.ok.injEq, Prod.mk.injEq, true_and] at h
    subst h
    refine ⟨by rw [ha], ?_⟩
    intro c hc
    rw [ht] at hc
    simp at hc
    rcases hc with h | h | h <;> simp [h, Call.isStartup]
  | some p =>
    cases hi : env.platformInitialize ({} : World).platform.initializeCalls with
    | false =>
      obtain ⟨w2, h2, ht, ha, _⟩ := initialize_platform_fails env config {} p hp hi
      rw [h2] at h
      simp only [Except.ok.injEq, Prod.mk.injEq, true_and] at h
      subst h
      refine ⟨by rw [ha], ?_⟩
      intro c hc
      rw [ht] at hc
      simp at hc
      rcases hc with h | h | h | h <;> simp [h, Call.isStartup]
    | true =>
      cases hc : env.createWindow ({} : World).platform.windowsCreated config with
      | none =>
        obtain ⟨w2, h2, ht, ha, _⟩ := initialize_no_window env config {} p hp hi hc
        rw [h2] at h
        simp only [Except.ok.injEq, Prod.mk.injEq, true_and] at h
        subst h
        refine ⟨by rw [ha], ?_⟩
        intro c hc
        rw [ht] at hc
        simp at hc
        rcases hc with h | h | h | h | h | h | h <;> simp [h, Call.isStartup]
      | some win0 =>
        obtain ⟨w2, h2, _⟩ := initialize_ok_state env config {} p win0 hp hi hc
        rw [h2] at h
        simp at h

/-- From a ready state `run()` returns when some poll triggers closure and the
budget reaches that far. -/
theorem run_returns (env : Env) (k : Nat) (w : World) (fuel : Nat) (hready : w.ready)
    (hbefore : ∀ j, j < k → env.triggers (w.platform.polls + j) = false)
    (htrig : env.triggers (w.platform.polls + k) = true) (hfuel : k + 1 ≤ fuel) :
    ∃ w2, Application.run env fuel w = Except.ok w2 := by
  obtain ⟨_, win, hw, _⟩ := id hready
  cases hr : w.app.running with
  | false => exact ⟨w, run_stopped env fuel w hr⟩
  | true =>
    cases hc : win.closeFlag with
    | true => exact ⟨_, run_closed env fuel w win hr hw hc⟩
    | false =>
      obtain ⟨w2, h2, _⟩ := run_polls env k w fuel hready hr ⟨win, hw, hc⟩ hbefore htrig hfuel
      exact ⟨w2, h2⟩

theorem stopsIn_zero (env : Env) (start : Nat) : env.stopsIn start 0 = false := by
  simp [Env.stopsIn]

theorem stopsIn_succ (env : Env) (start n : Nat) :
    env.stopsIn start (n + 1) =
      ((env.pollEvents start).any NativeEvent.stops || env.stopsIn (start + 1) n) := by
  simp only [Env.stopsIn, List.range_succ_eq_map, List.any_cons, List.any_map, Nat.add_zero]
  congr 1
  apply congrArg
  funext i
  simp [Function.comp, Nat.add_assoc, Nat.add_comm 1 i]

theorem stopsIn_false (env : Env) (start n : Nat)
    (h : ∀ j, j < n → (env.pollEvents (start + j)).any NativeEvent.stops = false) :
    env.stopsIn start n = false := by
  simp only [Env.stopsIn, List.any_eq_false, List.mem_range]
  intro j hj
  rw [h j hj]
  simp

/-- What a returned `run()` did: it only added to the log, it polled some
number of times, and running is its entry value unless one of those polls
delivered a stopping event. -/
theorem run_summary (env : Env) : ∀ (fuel : Nat) (w w2 : World), w.ready →
    Application.run env fuel w = Except.ok w2 →
    (∃ m, w2.trace = w.trace ++ m) ∧
    ∃ n, w2.platform.polls = w.platform.polls + n ∧
      w2.app.running = (w.app.running && !env.stopsIn w.platform.polls n) := by
  intro fuel
  induction fuel with
  | zero =>
    intro w w2 hready hrun
    obtain ⟨_, win, hw, _⟩ := hready
    cases hr : w.app.running with
    | false =>
      rw [run_stopped env 0 w hr] at hrun
      cases hrun
      exact ⟨⟨[], by simp⟩, 0, rfl, by simp [hr, stopsIn_zero]⟩
    | true =>
      cases hc : win.closeFlag with
      | false =>
        rw [run_zero_go env w win hr hw hc] at hrun
        cases hrun
      | true =>
        rw [run_closed env 0 w win hr hw hc] at hrun
        cases hrun
        exact ⟨⟨_, rfl⟩, 0, rfl, by simp [World.log, hr, stopsIn_zero]⟩
  | succ fuel ih =>
    intro w w2 hready hrun
    have hready0 := hready
    obtain ⟨_, win, hw, _⟩ := hready
    cases hr : w.app.running with
    | false =>
      rw [run_stopped env _ w hr] at hrun
      cases hrun
      exact ⟨⟨[], by simp⟩, 0, rfl, by simp [hr, stopsIn_zero]⟩
    | true =>
      cases hc : win.closeFlag with
      | true =>
        rw [run_closed env _ w win hr hw hc] at hrun
        cases hrun
        exact ⟨⟨_, rfl⟩, 0, rfl, by simp [World.log, hr, stopsIn_zero]⟩
      | false =>
        obtain ⟨wp, cbs, wf, _, htp, _, hf, htf, _, _, _, hreadyf⟩ :=
          frame_trace env (w.log [Call.windowShouldClose]) (ready_log hready0 _)
        obtain ⟨wf2, hf2, _, hrunf, _, hpolls, _⟩ :=
          frame_effect env (w.log [Call.windowShouldClose]) (ready_log hready0 _)
        rw [hf] at hf2
        cases hf2
        rw [run_step env fuel w wf win hr hw hc hf] at hrun
        have hpolls : wf.platform.polls = w.platform.polls + 1 := hpolls
        have hrunf : wf.app.running =
            (w.app.running && !(env.pollEvents w.platform.polls).any NativeEvent.stops) := hrunf
        obtain ⟨⟨m, hm⟩, n, hn, hrn⟩ := ih wf w2 hreadyf hrun
        have hext : ∃ m1, wf.trace = w.trace ++ m1 := by
          rw [htf, htp]
          simp only [World.log, List.append_assoc]
          exact ⟨_, rfl⟩
        obtain ⟨m1, hm1⟩ := hext
        refine ⟨⟨m1 ++ m, by rw [hm, hm1, List.append_assoc]⟩, n + 1, ?_, ?_⟩
        · rw [hn, hpolls]
          omega
        · rw [hrn, hrunf, hpolls, stopsIn_succ, hr]
          simp [Bool.and_assoc]

theorem triggers_of_not {env : Env} {i : Nat}
    (hs : (env.pollEvents i).any NativeEvent.stops = false)
    (hc : (env.pollEvents i).any NativeEvent.closes = false) : env.triggers i = false := by
  simp only [List.any_eq_false] at hs hc
  simp only [Env.triggers, List.any_eq_false, Bool.or_eq_true, not_or]
  exact fun ev hev => ⟨hs ev hev, hc ev hev⟩

theorem triggers_of_closes {env : Env} {i : Nat}
    (hc : (env.pollEvents i).any NativeEvent.closes = true) : env.triggers i = true := by
  simp only [List.any_eq_true] at hc
  obtain ⟨ev, hev, h⟩ := hc
  simp only [Env.triggers, List.any_eq_true, Bool.or_eq_true]
  exact ⟨ev, hev, Or.inr h⟩

/-- The full effect of `shutdown()` on any state. -/
theorem shutdown_effect (w : World) :
    ∃ w2, Application.shutdown w = Except.ok w2 ∧
      w2.trace = w.trace ++ (if w.app.window.isSome then [Call.windowDestroy] else []) ++
        (if w.app.platform.isSome then [Call.platformShutdown] else []) ∧
      w2.app.running = false ∧ w2.app.window = none ∧
      w2.app.platform = w.app.platform ∧ w2.app.lastFrameTime = w.app.lastFrameTime ∧
      w2.factoryInstance = w.factoryInstance ∧ w2.creates = w.creates ∧
      w2.platform.shutdownCalls =
        w.platform.shutdownCalls + (if w.app.platform.isSome then 1 else 0) := by
  rcases w with ⟨⟨p, win, r, t⟩, f, c, pl, tr⟩
  cases p <;> cases win <;>
    simp [Application.shutdown, Application.assignWindow, Platform.shutdown, World.log,
      World.derefPlatform, bind, Except.bind, pure, Except.pure]

/-! ## The claims -/

/-- C1: after `onKey(e)` the running flag is false when the event is a Press of
Escape, and otherwise it is what it was before; so a Release or Repeat of Escape
and a Press of any other key leave it alone. -/
theorem onKey_running (e : KeyEvent) (w : World) :
    (Application.onKey e w).app.running =
      (if e.key = KeyCode.Escape ∧ e.action = KeyAction.Press then false
       else w.app.running) := by
  unfold Application.onKey
  by_cases ha : e.action = KeyAction.Press <;> by_cases hk : e.key = KeyCode.Escape <;>
    simp [ha, hk, World.log]

/-- C2: `onClose()` leaves running false, calling it any number `n + 1` of times
leaves the application object as one call does, and one call changes no member
other than running, nor the platform or the factory. -/
theorem onClose_idempotent (n : Nat) (w : World) :
    (Application.onClose w).app.running = false ∧
    (Application.onCloseTimes (n + 1) w).app = (Application.onClose w).app ∧
    (Application.onClose w).app = { w.app with running := false } ∧
    (Application.onClose w).platform = w.platform ∧
    (Application.onClose w).factoryInstance = w.factoryInstance := by
  refine ⟨rfl, ?_, rfl, rfl, rfl⟩
  induction n generalizing w with
  | zero => rfl
  | succ n ih =>
    rw [Application.onCloseTimes, ih]
    rfl

/-- C3: `run()` returns at once, with no `pollEvents`, `update` or `render`,
when running is false or `shouldClose()` is true on entry; and from a ready state
with running true and `shouldClose()` false, when the `k`-th `pollEvents` call
from now is the first whose queue triggers closure, `run()` returns after
exactly `k` calls of `pollEvents`, given a budget of at least `k` iterations. -/
theorem run_terminates (env : Env) (w : World) :
    (∀ fuel, w.app.running = false → Application.run env fuel w = Except.ok w) ∧
    (∀ fuel win, w.app.running = true → w.app.window = some win → win.closeFlag = true →
      Application.run env fuel w = Except.ok (w.log [Call.windowShouldClose])) ∧
    (∀ k fuel, 1 ≤ k → w.ready → w.app.running = true →
      (∃ win, w.app.window = some win ∧ win.closeFlag = false) →
      (∀ j, j + 1 < k → env.triggers (w.platform.polls + j) = false) →
      env.triggers (w.platform.polls + (k - 1)) = true → k ≤ fuel →
      ∃ w2, Application.run env fuel w = Except.ok w2 ∧
        w2.platform.polls = w.platform.polls + k ∧
        w2.trace.count Call.platformPollEvents =
          w.trace.count Call.platformPollEvents + k ∧
        (w2.app.running = false ∨ ∃ win, w2.app.window = some win ∧ win.closeFlag = true)) := by
  refine ⟨fun fuel h => run_stopped env fuel w h,
    fun fuel win hr hw hc => run_closed env fuel w win hr hw hc, ?_⟩
  intro k fuel hk hready hr hwin hbefore htrig hfuel
  obtain ⟨k, rfl⟩ : ∃ m, k = m + 1 := ⟨k - 1, by omega⟩
  exact run_polls env k w fuel hready hr hwin
    (fun j hj => hbefore j (by omega)) (by simpa using htrig) hfuel

/-- C3 at the sample script, whose second poll delivers the close: `k = 2`. -/
theorem run_terminates_witness :
    ∃ w2, Application.run sampleEnv 2 sampleWorld = Except.ok w2 ∧
      w2.platform.polls = sampleWorld.platform.polls + 2 ∧
      w2.trace.count Call.platformPollEvents =
        sampleWorld.trace.count Call.platformPollEvents + 2 ∧
      (w2.app.running = false ∨ ∃ win, w2.app.window = some win ∧ win.closeFlag = true) :=
  (run_terminates sampleEnv sampleWorld).2.2 2 2 (by decide) sampleWorld_ready rfl
    ⟨_, rfl, rfl⟩
    (fun j hj => by
      have hj0 : j = 0 := by omega
      subst hj0
      rfl)
    rfl (by decide)

/-- C4: in an iteration of `run()` that is entered, the log gains, in this
order, `pollEvents`, then only what the dispatched callbacks write, then
`getTime`, `update(deltaTime)` and `render` with its clear; this is so whatever
the callbacks did to running, and `run()` goes on from the state so reached. -/
theorem run_iteration_order (env : Env) (w : World) (win : Window) (fuel : Nat)
    (hready : w.ready) (hr : w.app.running = true) (hw : w.app.window = some win)
    (hc : win.closeFlag = false) :
    ∃ wp cbs w2,
      Platform.pollEvents env (w.log [Call.windowShouldClose]) = Except.ok wp ∧
      wp.trace = w.trace ++ [Call.windowShouldClose, Call.platformPollEvents] ++ cbs ∧
      (∀ c ∈ cbs, c.isDispatch = true) ∧
      Application.frame env (w.log [Call.windowShouldClose]) = Except.ok w2 ∧
      w2.trace = wp.trace ++ [Call.platformGetTime,
        Call.update (Double.sub (env.getTime w.platform.timeCalls) w.app.lastFrameTime),
        Call.render, Call.windowGetGraphicsContext,
        Call.contextClear Application.clearColor] ∧
      w2.app.running = wp.app.running ∧
      Application.run env (fuel + 1) w = Application.run env fuel w2 := by
  obtain ⟨wp, cbs, wf, hp, htp, hcbs, hf, htf, _, _, hrun, _⟩ :=
    frame_trace env (w.log [Call.windowShouldClose]) (ready_log hready _)
  refine ⟨wp, cbs, wf, hp, ?_, hcbs, hf, htf, hrun, run_step env fuel w wf win hr hw hc hf⟩
  rw [htp]
  simp [World.log]

/-- C4 at the first iteration of the sample run. -/
theorem run_iteration_order_witness :
    ∃ wp cbs w2,
      Platform.pollEvents sampleEnv (sampleWorld.log [Call.windowShouldClose]) =
        Except.ok wp ∧
      wp.trace = sampleWorld.trace ++
        [Call.windowShouldClose, Call.platformPollEvents] ++ cbs ∧
      (∀ c ∈ cbs, c.isDispatch = true) ∧
      Application.frame sampleEnv (sampleWorld.log [Call.windowShouldClose]) =
        Except.ok w2 ∧
      w2.trace = wp.trace ++ [Call.platformGetTime,
        Call.update (Double.sub (sampleEnv.getTime sampleWorld.platform.timeCalls)
          sampleWorld.app.lastFrameTime),
        Call.render, Call.windowGetGraphicsContext,
        Call.contextClear Application.clearColor] ∧
      w2.app.running = wp.app.running ∧
      Application.run sampleEnv (1 + 1) sampleWorld = Application.run sampleEnv 1 w2 :=
  run_iteration_order sampleEnv sampleWorld _ 1 sampleWorld_ready rfl rfl rfl

/-- C5, as the claim states it, fails: the clock that reads positive infinity at
every sample never decreases, `initialize` stores the first sample, and the
first iteration passes infinity minus infinity, which is NaN and not at least
zero, to `update`. -/
theorem deltaTime_nan_for_infinite_clock :
    (∀ i j, i ≤ j → Double.le (infClockEnv.getTime i) (infClockEnv.getTime j) = true) ∧
    ∃ w1 wp wf w2, Application.initialize infClockEnv {} {} = Except.ok (true, w1) ∧
      Platform.pollEvents infClockEnv w1 = Except.ok wp ∧
      Application.frame infClockEnv w1 = Except.ok wf ∧
      wf.trace = wp.trace ++ [Call.platformGetTime, Call.update Double.nan,
        Call.render, Call.windowGetGraphicsContext,
        Call.contextClear Application.clearColor] ∧
      Application.run infClockEnv 2 w1 = Except.ok w2 ∧
      Call.update Double.nan ∈ w2.trace ∧
      Double.le (Double.finite 0) Double.nan = false :=
  ⟨fun _ _ _ => rfl, _, _, _, _, rfl, rfl, rfl, rfl, rfl, by decide, rfl⟩

/-- C5, amended: under a clock whose samples are finite and never decrease, a
successful `initialize` leaves lastFrameTime equal to the latest sample, and
from any such ready state one iteration passes to `update` exactly the `double`
difference of the new sample and lastFrameTime, which is at least zero, and
stores the new sample in lastFrameTime, so the next iteration starts from such
a state again; hence every `update` logged by a returned `run()` got a time
step of at least zero. -/
theorem deltaTime_nonneg (env : Env) (hfin : ∀ i, (env.getTime i).isFinite = true)
    (hmono : ∀ i j, i ≤ j → Double.le (env.getTime i) (env.getTime j) = true) :
    (∀ config w0 w, Application.initialize env config w0 = Except.ok (true, w) →
      w.ready ∧ w.clocked env) ∧
    (∀ w, w.ready → w.clocked env →
      ∃ wp wf, Platform.pollEvents env w = Except.ok wp ∧
        Application.frame env w = Except.ok wf ∧
        wf.trace = wp.trace ++ [Call.platformGetTime,
          Call.update (Double.sub (env.getTime w.platform.timeCalls) w.app.lastFrameTime),
          Call.render, Call.windowGetGraphicsContext,
          Call.contextClear Application.clearColor] ∧
        Double.le (Double.finite 0)
          (Double.sub (env.getTime w.platform.timeCalls) w.app.lastFrameTime) = true ∧
        wf.app.lastFrameTime = env.getTime w.platform.timeCalls ∧
        wf.ready ∧ wf.clocked env) ∧
    (∀ fuel w w3, w.ready → w.clocked env → Application.run env fuel w = Except.ok w3 →
      ∀ dt, Call.update dt ∈ w3.trace →
        Call.update dt ∈ w.trace ∨ Double.le (Double.finite 0) dt = true) := by
  refine ⟨fun config w0 w h => initialize_true_state env config w0 w h, ?_,
    run_updates_nonneg env hfin hmono⟩
  intro w hready hclock
  obtain ⟨wp, cbs, wf, hp, _, _, hf, htf, hlast, htc, _, hreadyf⟩ := frame_trace env w hready
  obtain ⟨n, hn, hl⟩ := hclock
  refine ⟨wp, wf, hp, hf, htf, ?_, hlast, hreadyf, ⟨_, htc, hlast⟩⟩
  rw [hl]
  exact clock_step_nonneg env hfin hmono n w.platform.timeCalls (by omega)

/-- The amended C5 at the first iteration of the sample run, whose clock ticks
once per sample. -/
theorem deltaTime_nonneg_witness :
    ∃ wp wf, Platform.pollEvents sampleEnv sampleWorld = Except.ok wp ∧
      Application.frame sampleEnv sampleWorld = Except.ok wf ∧
      wf.trace = wp.trace ++ [Call.platformGetTime,
        Call.update (Double.sub (sampleEnv.getTime sampleWorld.platform.timeCalls)
          sampleWorld.app.lastFrameTime),
        Call.render, Call.windowGetGraphicsContext,
        Call.contextClear Application.clearColor] ∧
      Double.le (Double.finite 0)
        (Double.sub (sampleEnv.getTime sampleWorld.platform.timeCalls)
          sampleWorld.app.lastFrameTime) = true ∧
      wf.app.lastFrameTime = sampleEnv.getTime sampleWorld.platform.timeCalls ∧
      wf.ready ∧ wf.clocked sampleEnv :=
  (deltaTime_nonneg sampleEnv (fun _ => rfl) sampleEnv_mono).2.1 sampleWorld
    sampleWorld_ready ⟨0, rfl, rfl⟩

/-- C6: after any sequence of `initialize` calls on a fresh application, each
against its own script, any number `n + 1` of `shutdown()` calls all return and
leave no window owned and running false; the fresh application is in that
state already. -/
theorem shutdown_always_safe (steps : List (Env × WindowConfig)) (n : Nat) :
    (∃ w1 w2, Application.initializeAll steps {} = Except.ok w1 ∧
      Application.shutdownTimes (n + 1) w1 = Except.ok w2 ∧
      w2.app.window = none ∧ w2.app.running = false) ∧
    (({} : World).app.window = none ∧ ({} : World).app.running = false) := by
  obtain ⟨w1, h1⟩ := initializeAll_returns steps {}
  obtain ⟨w2, h2, hw, hr⟩ := shutdownTimes_released n w1
  exact ⟨⟨w1, w2, h1, h2, hw, hr⟩, rfl, rfl⟩

/-- C7, as the claim states it, fails: after a successful `initialize` and one
`shutdown()`, the second `shutdown()` calls `Platform::shutdown` once more. -/
theorem second_shutdown_calls_platform :
    Application.initialize sampleEnv {} {} = Except.ok (true, sampleWorld) ∧
    Application.shutdown sampleWorld = Except.ok stoppedWorld ∧
    ∃ w3, Application.shutdown stoppedWorld = Except.ok w3 ∧
      w3.trace = stoppedWorld.trace ++ [Call.platformShutdown] ∧
      stoppedWorld.platform.shutdownCalls = 1 ∧ w3.platform.shutdownCalls = 2 :=
  ⟨rfl, rfl, _, rfl, rfl, rfl, rfl⟩

/-- C7, amended: after a successful `initialize` and one `shutdown()`, a second
`shutdown()` (also the one the destructor makes) returns, changes no member of
the application and touches no window; its one effect is a further call of
`Platform::shutdown`. -/
theorem second_shutdown_effect (env : Env) (config : WindowConfig) (w0 w1 w2 : World)
    (h1 : Application.initialize env config w0 = Except.ok (true, w1))
    (h2 : Application.shutdown w1 = Except.ok w2) :
    ∃ w3, Application.shutdown w2 = Except.ok w3 ∧
      Application.destructor w2 = Except.ok w3 ∧ w3.app = w2.app ∧
      w3.trace = w2.trace ++ [Call.platformShutdown] ∧
      w3.platform = { w2.platform with shutdownCalls := w2.platform.shutdownCalls + 1 } ∧
      w3.factoryInstance = w2.factoryInstance ∧ w3.creates = w2.creates := by
  obtain ⟨⟨⟨p, hp⟩, _⟩, _⟩ := initialize_true_state env config w0 w1 h1
  obtain ⟨w2', h2', hw, hr, hpl, _⟩ := shutdown_released w1
  rw [h2] at h2'
  cases h2'
  obtain ⟨w3, h3, rest⟩ := shutdown_again w2 p hw hr (by rw [hpl]; exact hp)
  exact ⟨w3, h3, h3, rest⟩

/-- The amended C7 at the sample script: the third state differs from the
second only by one more `Platform::shutdown`. -/
theorem second_shutdown_effect_witness :
    ∃ w3, Application.shutdown stoppedWorld = Except.ok w3 ∧
      Application.destructor stoppedWorld = Except.ok w3 ∧ w3.app = stoppedWorld.app ∧
      w3.trace = stoppedWorld.trace ++ [Call.platformShutdown] ∧
      w3.platform = { stoppedWorld.platform with
        shutdownCalls := stoppedWorld.platform.shutdownCalls + 1 } ∧
      w3.factoryInstance = stoppedWorld.factoryInstance ∧ w3.creates = stoppedWorld.creates :=
  second_shutdown_effect sampleEnv {} {} sampleWorld stoppedWorld rfl rfl

/-- C8: `initialize` returns false at the first failing step and does nothing
of what follows it. With no platform from the factory, `Platform::initialize` is
not called; when that call returns false, `createWindow` is not called; when
`createWindow` returns nothing, no callback is registered and `show()` is not
called. In each case running and lastFrameTime keep their values (so running
stays false) and a `shutdown()` right after returns. -/
theorem initialize_fails_early (env : Env) (config : WindowConfig) (w : World) :
    ((PlatformFactory.getInstance env w).1 = none →
      ∃ w2, Application.initialize env config w = Except.ok (false, w2) ∧
        w2.trace = w.trace ++ [Call.factoryGetInstance, Call.factoryCreate,
          Call.print Msg.failedCreatePlatform] ∧
        w2.platform = w.platform ∧
        w2.app.running = w.app.running ∧ w2.app.lastFrameTime = w.app.lastFrameTime ∧
        ∃ w3, Application.shutdown w2 = Except.ok w3 ∧ w3.app.window = none ∧
          w3.app.running = false) ∧
    (∀ p, (PlatformFactory.getInstance env w).1 = some p →
      env.platformInitialize w.platform.initializeCalls = false →
      ∃ w2, Application.initialize env config w = Except.ok (false, w2) ∧
        w2.trace = w.trace ++ [Call.factoryGetInstance] ++
          (if w.factoryInstance.isSome then [] else [Call.factoryCreate]) ++
          [Call.platformInitialize, Call.print Msg.failedInitPlatform] ∧
        w2.platform.windowsCreated = w.platform.windowsCreated ∧
        w2.app.window = w.app.window ∧
        w2.app.running = w.app.running ∧ w2.app.lastFrameTime = w.app.lastFrameTime ∧
        ∃ w3, Application.shutdown w2 = Except.ok w3 ∧ w3.app.window = none ∧
          w3.app.running = false) ∧
    (∀ p, (PlatformFactory.getInstance env w).1 = some p →
      env.platformInitialize w.platform.initializeCalls = true →
      env.createWindow w.platform.windowsCreated config = none →
      ∃ w2, Application.initialize env config w = Except.ok (false, w2) ∧
        w2.trace = w.trace ++ [Call.factoryGetInstance] ++
          (if w.factoryInstance.isSome then [] else [Call.factoryCreate]) ++
          [Call.platformInitialize, Call.platformGetPlatformName,
            Call.print (Msg.platformName env.platformName),
            Call.platformCreateWindow config] ++
          (if w.app.window.isSome then [Call.windowDestroy] else []) ++
          [Call.print Msg.failedCreateWindow] ∧
        w2.app.window = none ∧
        w2.app.running = w.app.running ∧ w2.app.lastFrameTime = w.app.lastFrameTime ∧
        ∃ w3, Application.shutdown w2 = Except.ok w3 ∧ w3.app.window = none ∧
          w3.app.running = false) := by
  refine ⟨fun hp => ?_, fun p hp hi => ?_, fun p hp hi hc => ?_⟩
  · obtain ⟨w2, h, ht, ha, hpl⟩ := initialize_no_platform env config w hp
    obtain ⟨w3, h3, hw3, hr3, _⟩ := shutdown_released w2
    exact ⟨w2, h, ht, hpl, by rw [ha], by rw [ha], w3, h3, hw3, hr3⟩
  · obtain ⟨w2, h, ht, ha, hpl⟩ := initialize_platform_fails env config w p hp hi
    obtain ⟨w3, h3, hw3, hr3, _⟩ := shutdown_released w2
    exact ⟨w2, h, ht, by rw [hpl], by rw [ha], by rw [ha], by rw [ha], w3, h3, hw3, hr3⟩
  · obtain ⟨w2, h, ht, ha, hpl⟩ := initialize_no_window env config w p hp hi hc
    obtain ⟨w3, h3, hw3, hr3, _⟩ := shutdown_released w2
    exact ⟨w2, h, ht, by rw [ha], by rw [ha], by rw [ha], w3, h3, hw3, hr3⟩

/-- C8 at three sample scripts, one per failing step, from a fresh application. -/
theorem initialize_fails_early_witness :
    (∃ w2, Application.initialize noPlatformEnv {} {} = Except.ok (false, w2) ∧
      w2.trace = [Call.factoryGetInstance, Call.factoryCreate,
        Call.print Msg.failedCreatePlatform] ∧
      w2.app.running = false) ∧
    (∃ w2, Application.initialize noInitEnv {} {} = Except.ok (false, w2) ∧
      w2.trace = [Call.factoryGetInstance, Call.factoryCreate, Call.platformInitialize,
        Call.print Msg.failedInitPlatform] ∧
      w2.app.running = false) ∧
    (∃ w2, Application.initialize noWindowEnv {} {} = Except.ok (false, w2) ∧
      w2.trace = [Call.factoryGetInstance, Call.factoryCreate, Call.platformInitialize,
        Call.platformGetPlatformName, Call.print (Msg.platformName "Fake"),
        Call.platformCreateWindow {}, Call.print Msg.failedCreateWindow] ∧
      w2.app.running = false) := by
  refine ⟨?_, ?_, ?_⟩
  · obtain ⟨w2, h, ht, _, hr, _⟩ := (initialize_fails_early noPlatformEnv {} {}).1 rfl
    exact ⟨w2, h, ht, hr⟩
  · obtain ⟨w2, h, ht, _, _, hr, _⟩ := (initialize_fails_early noInitEnv {} {}).2.1 0 rfl rfl
    exact ⟨w2, h, ht, hr⟩
  · obtain ⟨w2, h, ht, _, hr, _⟩ := (initialize_fails_early noWindowEnv {} {}).2.2 0 rfl rfl rfl
    exact ⟨w2, h, ht, hr⟩

/-- C10: every call of `render()` on an application that owns a window logs
exactly the window's `getGraphicsContext` and one `clear` with the colour
(0.1, 0.1, 0.2, 1.0), so neither `beginFrame` nor `endFrame` nor any other
context operation; without a window the call dereferences a null pointer. -/
theorem render_clears_once (w : World) :
    Application.render w =
      (match w.app.window with
       | none => Except.error Fault.nullDeref
       | some _ => Except.ok (w.log [Call.render, Call.windowGetGraphicsContext,
          Call.contextClear { r := 1 / 10, g := 1 / 10, b := 2 / 10, a := 1 }])) := by
  rcases w with ⟨⟨ap, awin, r, t⟩, f, c, pl, tr⟩
  cases awin <;>
    simp [Application.render, Window.getGraphicsContext, World.derefWindow,
      GraphicsContext.clear, Application.clearColor, World.log, bind, Except.bind, pure,
      Except.pure]

/-- C11: from the start, when `create()` yields an instance, any number `n + 2` of
successive `getInstance()` calls all return that one instance and `create()` is
logged once, right after the first call; and when the factory holds an instance
already, they all return it and `create()` is not called. -/
theorem getInstance_singleton (env : Env) (w : World) (n : Nat) :
    (w.factoryInstance = none → env.create w.creates = true →
      (PlatformFactory.getInstanceTimes env (n + 2) w).1 =
        List.replicate (n + 2) (some w.creates) ∧
      (PlatformFactory.getInstanceTimes env (n + 2) w).2.trace =
        w.trace ++ [Call.factoryGetInstance, Call.factoryCreate] ++
          List.replicate (n + 1) Call.factoryGetInstance ∧
      (PlatformFactory.getInstanceTimes env (n + 2) w).2.trace.count Call.factoryCreate =
        w.trace.count Call.factoryCreate + 1 ∧
      (PlatformFactory.getInstanceTimes env (n + 2) w).2.creates = w.creates + 1 ∧
      (PlatformFactory.getInstanceTimes env (n + 2) w).2.factoryInstance = some w.creates) ∧
    (∀ p, w.factoryInstance = some p →
      (PlatformFactory.getInstanceTimes env (n + 2) w).1 = List.replicate (n + 2) (some p) ∧
      (PlatformFactory.getInstanceTimes env (n + 2) w).2.trace =
        w.trace ++ List.replicate (n + 2) Call.factoryGetInstance ∧
      (PlatformFactory.getInstanceTimes env (n + 2) w).2.creates = w.creates ∧
      (PlatformFactory.getInstanceTimes env (n + 2) w).2.factoryInstance = some p) := by
  constructor
  · intro h0 hc
    have hg : PlatformFactory.getInstance env w = (some w.creates,
        { w.log [Call.factoryGetInstance, Call.factoryCreate] with
          creates := w.creates + 1, factoryInstance := some w.creates }) := by
      rcases w with ⟨a, f, c, pl, tr⟩
      simp only at h0 hc
      subst h0
      simp [PlatformFactory.getInstance, PlatformFactory.create, World.log, hc]
    rw [PlatformFactory.getInstanceTimes]
    simp only [hg]
    rw [getInstanceTimes_held env (n + 1) _ w.creates rfl]
    refine ⟨by simp [List.replicate_succ], by simp [World.log], ?_, rfl, rfl⟩
    simp [World.log, List.count_append, List.count_cons, List.count_replicate]
  · intro p hp
    rw [getInstanceTimes_held env (n + 2) w p hp]
    exact ⟨rfl, rfl, rfl, hp⟩

/-- C11 at the sample script, four calls from process start. -/
theorem getInstance_singleton_witness :
    (PlatformFactory.getInstanceTimes sampleEnv 4 {}).1 = [some 0, some 0, some 0, some 0] ∧
    (PlatformFactory.getInstanceTimes sampleEnv 4 {}).2.trace =
      [Call.factoryGetInstance, Call.factoryCreate, Call.factoryGetInstance,
        Call.factoryGetInstance, Call.factoryGetInstance] := by
  obtain ⟨h1, h2, _⟩ := (getInstance_singleton sampleEnv {} 2).1 rfl rfl
  exact ⟨h1, h2⟩

/-- C12: when `initialize` returns false, `main` returns 1 without calling
`run()` (no poll, update or render is logged either); when `initialize` returns
true and the loop returns, `main` returns 0 after `shutdown()`, with no window
owned and running false; and the loop does return when some poll triggers
closure within the iteration budget. -/
theorem main_exit_status (env : Env) (fuel : Nat) :
    (∀ w1, Application.initialize env {} {} = Except.ok (false, w1) →
      ∃ w2, main env fuel = Except.ok (1, w2) ∧ Call.run ∉ w2.trace ∧
        Call.platformPollEvents ∉ w2.trace ∧ Call.render ∉ w2.trace ∧
        ∀ dt, Call.update dt ∉ w2.trace) ∧
    (∀ w1, Application.initialize env {} {} = Except.ok (true, w1) →
      (∀ w2, Application.run env fuel
          ((w1.log [Call.print (Msg.mainInitialized "Drite")]).log [Call.run]) =
            Except.ok w2 →
        ∃ w3, main env fuel = Except.ok (0, w3) ∧ Call.run ∈ w3.trace ∧
          w3.app.running = false ∧ w3.app.window = none) ∧
      (∀ k, (∀ j, j < k → env.triggers j = false) → env.triggers k = true →
        k + 1 ≤ fuel → ∃ w3, main env fuel = Except.ok (0, w3))) := by
  have hmain : ∀ w1 w2, Application.initialize env {} {} = Except.ok (true, w1) →
      Application.run env fuel
        ((w1.log [Call.print (Msg.mainInitialized "Drite")]).log [Call.run]) =
          Except.ok w2 →
      ∃ w3, main env fuel = Except.ok (0, w3) ∧ Call.run ∈ w3.trace ∧
        w3.app.running = false ∧ w3.app.window = none := by
    intro w1 w2 hinit hrun
    obtain ⟨wa, ha, hta, _⟩ := shutdown_effect w2
    obtain ⟨wb, hb, htb, hrb, hwb, _⟩ := shutdown_effect wa
    have hready : w1.ready := (initialize_true_main env {} {} w1 hinit).1
    have hpre : ∃ m, w2.trace = w1.trace ++
        [Call.print (Msg.mainInitialized "Drite"), Call.run] ++ m := by
      obtain ⟨⟨m, hm⟩, _⟩ := run_summary env fuel _ w2 (ready_log (ready_log hready _) _) hrun
      exact ⟨m, by rw [hm]; simp [World.log]⟩
    refine ⟨wb, ?_, ?_, hrb, hwb⟩
    · simp [main, hinit, hrun, ha, hb, Application.destructor, bind, Except.bind, pure,
        Except.pure]
    · obtain ⟨m, hm⟩ := hpre
      rw [htb, hta, hm]
      simp
  refine ⟨?_, fun w1 hinit => ⟨fun w2 hrun => hmain w1 w2 hinit hrun, ?_⟩⟩
  · intro w1 hinit
    obtain ⟨hw, hcalls⟩ := initialize_false_fresh env {} w1 hinit
    obtain ⟨w2, h2, ht2, _⟩ :=
      shutdown_effect (w1.log [Call.print (Msg.mainFailed "Drite")])
    have hmem : ∀ c ∈ w2.trace, c.isStartup = true := by
      intro c hc
      rw [ht2] at hc
      simp only [World.log, hw, Option.isSome_none, Bool.false_eq_true, if_false,
        List.append_nil, List.mem_append, List.mem_singleton] at hc
      rcases hc with (h | h) | h
      · exact hcalls c h
      · simp [h, Call.isStartup]
      · split at h
        · simp only [List.mem_singleton] at h
          simp [h, Call.isStartup]
        · cases h
    refine ⟨w2, ?_, ?_, ?_, ?_, ?_⟩
    · simp [main, hinit, h2, Application.destructor, bind, Except.bind, pure, Except.pure]
    · intro h
      have := hmem _ h
      simp [Call.isStartup] at this
    · intro h
      have := hmem _ h
      simp [Call.isStartup] at this
    · intro h
      have := hmem _ h
      simp [Call.isStartup] at this
    · intro dt h
      have := hmem _ h
      simp [Call.isStartup] at this
  · intro k hbefore htrig hfuel
    obtain ⟨hready, hpolls⟩ := initialize_true_main env {} {} w1 hinit
    have hp0 : ((w1.log [Call.print (Msg.mainInitialized "Drite")]).log
        [Call.run]).platform.polls = 0 := hpolls
    obtain ⟨w2, hrun⟩ := run_returns env k
      ((w1.log [Call.print (Msg.mainInitialized "Drite")]).log [Call.run]) fuel
      (ready_log (ready_log hready _) _)
      (fun j hj => by rw [hp0, Nat.zero_add]; exact hbefore j hj)
      (by rw [hp0, Nat.zero_add]; exact htrig) hfuel
    obtain ⟨w3, h3, _⟩ := hmain w1 w2 hinit hrun
    exact ⟨w3, h3⟩

/-- C12 at two sample scripts: a platform that fails to initialise gives exit
status 1 without `run()`, the sample script gives exit status 0. -/
theorem main_exit_status_witness :
    (∃ w2, main noInitEnv 0 = Except.ok (1, w2) ∧ Call.run ∉ w2.trace) ∧
    (∃ w3, main sampleEnv 2 = Except.ok (0, w3)) := by
  constructor
  · obtain ⟨w2, h, hr, _⟩ := (main_exit_status noInitEnv 0).1 _ rfl
    exact ⟨w2, h, hr⟩
  · exact ((main_exit_status sampleEnv 2).2 sampleWorld rfl).2 1
      (fun j hj => by
        have hj0 : j = 0 := by omega
        subst hj0
        rfl)
      rfl (by decide)

/-- C13: `onMouse`, `onScroll` and `onResize` only add to the log: a printed
line each (for `onMouse` only on a Press), and for `onResize` the query
`getFramebufferSize` before its lines; adding to the log changes no member of
the application, nor the platform or the factory. Without a window `onResize`
dereferences a null pointer. -/
theorem handlers_only_report (w : World) :
    (∀ e : MouseEvent, Application.onMouse e w =
      w.log (if e.action = MouseAction.Press then
        [Call.print (Msg.mouseClick e.x e.y)] else [])) ∧
    (∀ e : ScrollEvent, Application.onScroll e w =
      w.log [Call.print (Msg.scroll e.xOffset e.yOffset)]) ∧
    (∀ width height : Int, Application.onResize width height w =
      (match w.app.window with
       | none => Except.error Fault.nullDeref
       | some win => Except.ok (w.log ([Call.windowGetFramebufferSize,
          Call.print (Msg.resized width height)] ++
          (if win.framebufferSize.1 ≠ width ∨ win.framebufferSize.2 ≠ height then
            [Call.print (Msg.resizedPixels win.framebufferSize.1 win.framebufferSize.2)]
           else []) ++ [Call.print Msg.newline])))) ∧
    (∀ cs, (w.log cs).app = w.app ∧ (w.log cs).platform = w.platform ∧
      (w.log cs).factoryInstance = w.factoryInstance ∧ (w.log cs).creates = w.creates) := by
  rcases w with ⟨⟨ap, awin, r, t⟩, f, c, pl, tr⟩
  refine ⟨fun e => ?_, fun e => rfl, fun width height => ?_, fun cs => ⟨rfl, rfl, rfl, rfl⟩⟩
  · by_cases ha : e.action = MouseAction.Press <;> simp [Application.onMouse, World.log, ha]
  · cases awin with
    | none =>
      simp [Application.onResize, Window.getFramebufferSize, World.derefWindow, bind,
        Except.bind]
    | some win =>
      by_cases hd : win.framebufferSize.1 ≠ width ∨ win.framebufferSize.2 ≠ height <;>
        simp [Application.onResize, Window.getFramebufferSize, World.derefWindow, World.log,
          hd, bind, Except.bind, pure, Except.pure]

/-- C14: `shutdown()` returns from every state; it logs the destruction of the
window exactly when one is owned, then `Platform::shutdown` exactly when a
platform is referenced, in this order; running is false afterwards, no window
is owned, and the platform reference and the factory's instance are as before. -/
theorem shutdown_order (w : World) :
    ∃ w2, Application.shutdown w = Except.ok w2 ∧
      w2.trace = w.trace ++ (if w.app.window.isSome then [Call.windowDestroy] else []) ++
        (if w.app.platform.isSome then [Call.platformShutdown] else []) ∧
      w2.app.running = false ∧ w2.app.window = none ∧
      w2.app.platform = w.app.platform ∧ w2.app.lastFrameTime = w.app.lastFrameTime ∧
      w2.factoryInstance = w.factoryInstance ∧ w2.creates = w.creates ∧
      w2.platform.shutdownCalls =
        w.platform.shutdownCalls + (if w.app.platform.isSome then 1 else 0) :=
  shutdown_effect w

/-- C15: the loop test of `run()` writes no member, and when `run()` returns
from a ready state, running is its entry value unless one of the polls made
delivered the close callback or a Press of Escape. So when the loop ends only
because a poll set the close flag, running is still true at the return, until
`shutdown()` sets it to false. And no handler, `update` or `render` turns
running from false to true: `onClose` sets it to false, `onKey` can only clear
it, the others leave the application's members as they are. -/
theorem run_keeps_running (env : Env) :
    (∀ w b w2, Application.loopCondition w = Except.ok (b, w2) → w2.app = w.app) ∧
    (∀ fuel w w2, w.ready → Application.run env fuel w = Except.ok w2 →
      ∃ n, w2.platform.polls = w.platform.polls + n ∧
        w2.app.running = (w.app.running && !env.stopsIn w.platform.polls n)) ∧
    (∀ k fuel w, w.ready → w.app.running = true →
      (∃ win, w.app.window = some win ∧ win.closeFlag = false) →
      (∀ j, j ≤ k → (env.pollEvents (w.platform.polls + j)).any NativeEvent.stops = false) →
      (∀ j, j < k → (env.pollEvents (w.platform.polls + j)).any NativeEvent.closes = false) →
      (env.pollEvents (w.platform.polls + k)).any NativeEvent.closes = true → k + 1 ≤ fuel →
      ∃ w2, Application.run env fuel w = Except.ok w2 ∧ w2.app.running = true ∧
        (∃ win, w2.app.window = some win ∧ win.closeFlag = true) ∧
        ∃ w3, Application.shutdown w2 = Except.ok w3 ∧ w3.app.running = false) ∧
    (∀ w, (Application.onClose w).app.running = false) ∧
    (∀ e w, (Application.onKey e w).app.running =
      (w.app.running && !decide (e.key = KeyCode.Escape ∧ e.action = KeyAction.Press))) ∧
    (∀ e w, (Application.onMouse e w).app = w.app) ∧
    (∀ e w, (Application.onScroll e w).app = w.app) ∧
    (∀ dt w, (Application.update dt w).app = w.app) ∧
    (∀ width height w w2, Application.onResize width height w = Except.ok w2 →
      w2.app = w.app) ∧
    (∀ w w2, Application.render w = Except.ok w2 → w2.app = w.app) := by
  refine ⟨?_, fun fuel w w2 hready hrun => (run_summary env fuel w w2 hready hrun).2, ?_,
    fun w => rfl, ?_, ?_, fun e w => rfl, fun dt w => rfl, ?_, ?_⟩
  · intro w b w2 h
    rcases w with ⟨⟨ap, awin, r, t⟩, f, c, pl, tr⟩
    cases r <;> cases awin <;>
      simp [Application.loopCondition, Window.shouldClose, World.derefWindow, World.log, bind,
        Except.bind, pure, Except.pure] at h
    all_goals rw [← h.2]
  · intro k fuel w hready hr hwin hstops hbefore hclose hfuel
    obtain ⟨w2, h2, hp2, _, hfin⟩ := run_polls env k w fuel hready hr hwin
      (fun j hj => triggers_of_not (hstops j (by omega)) (hbefore j hj))
      (triggers_of_closes hclose) hfuel
    obtain ⟨n, hn, hrn⟩ := (run_summary env fuel w w2 hready h2).2
    have hnk : n = k + 1 := by omega
    subst hnk
    have hrun2 : w2.app.running = true := by
      rw [hrn, hr, stopsIn_false env w.platform.polls (k + 1) (fun j hj => hstops j (by omega))]
      rfl
    obtain ⟨w3, h3, _, hr3, _⟩ := shutdown_effect w2
    refine ⟨w2, h2, hrun2, ?_, w3, h3, hr3⟩
    rcases hfin with h | h
    · rw [hrun2] at h
      cases h
    · exact h
  · intro e w
    unfold Application.onKey
    by_cases ha : e.action = KeyAction.Press <;> by_cases hk : e.key = KeyCode.Escape <;>
      simp [ha, hk, World.log]
  · intro e w
    unfold Application.onMouse
    by_cases ha : e.action = MouseAction.Press <;> simp [ha, World.log]
  · intro width height w w2 h
    rcases w with ⟨⟨ap, awin, r, t⟩, f, c, pl, tr⟩
    cases awin with
    | none =>
      simp [Application.onResize, Window.getFramebufferSize, World.derefWindow, bind,
        Except.bind] at h
    | some win =>
      by_cases hd : win.framebufferSize.1 ≠ width ∨ win.framebufferSize.2 ≠ height <;>
        simp [Application.onResize, Window.getFramebufferSize, World.derefWindow, World.log,
          hd, bind, Except.bind, pure, Except.pure] at h <;>
        rw [← h]
  · intro w w2 h
    rcases w with ⟨⟨ap, awin, r, t⟩, f, c, pl, tr⟩
    cases awin <;>
      simp [Application.render, Window.getGraphicsContext, World.derefWindow,
        GraphicsContext.clear, World.log, bind, Except.bind, pure, Except.pure] at h
    rw [← h]

/-- C15 at a sample run that ends on the close flag alone: running is still
true when `run()` returns. -/
theorem run_keeps_running_witness :
    ∃ w2, Application.run closeFlagEnv 2 sampleWorld = Except.ok w2 ∧
      w2.app.running = true ∧
      (∃ win, w2.app.window = some win ∧ win.closeFlag = true) ∧
      ∃ w3, Application.shutdown w2 = Except.ok w3 ∧ w3.app.running = false :=
  (run_keeps_running closeFlagEnv).2.2.1 1 2 sampleWorld sampleWorld_ready rfl ⟨_, rfl, rfl⟩
    (fun j hj => by
      have hj01 : j = 0 ∨ j = 1 := by omega
      rcases hj01 with h | h <;> subst h <;> rfl)
    (fun j hj => by
      have hj0 : j = 0 := by omega
      subst hj0
      rfl)
    rfl (by decide)

end Drite
